import Mathlib

/-!
# NexGen-Studio — verification of the cost-governed workflow core

Shallow embedding of the cost governance and workflow-orchestration core of
the NexGen-Studio backend, translated from the Python sources:

* `src/nexgen_studio/costs.py`               — `CostEnvelope`, `CostTracker`
* `src/lewis_ai_system/cost_monitor.py`      — `CostMonitor` (snapshots,
  anomaly detection, pause decisions)
* `src/nexgen_studio/creative/workflow.py`   — `CreativeOrchestrator`
  (`_record_cost_guardrail`, stage functions, storyboard assembly)
* `src/lewis_ai_system/creative/models.py`   — creative data model
* `src/lewis_ai_system/routers/creative.py`  — pause / resume endpoints
* `src/nexgen_studio/general/session.py`     — `GeneralModeOrchestrator`,
  `SessionRecordingToolRuntime`
* `src/nexgen_studio/general/models.py`      — general data model,
  `GuardrailTriggered`
* `src/lewis_ai_system/agents/general.py`    — `GeneralAgent.react_loop`
* `src/lewis_ai_system/tooling.py`           — `ToolRuntime`

Conventions of the embedding:

* money and timestamps are rationals (`ℚ`); timestamps are seconds;
* Python dicts keyed by entity id become association lists
  (`List (String × β)`) with first-match lookup;
* Python exception flow becomes `Except`: a raised exception carries the
  state as mutated up to the raise site (`.error (state, exc)`), since the
  Python code mutates objects in place before raising;
* `GuardrailTriggered` derives from `RuntimeError`, hence from `Exception`;
  the embedding therefore models a Python `except Exception` handler as
  catching *every* `PyError`, including `PyError.guardrail`;
* LLM / media capabilities are external collaborators; they are modelled as
  oracle parameters that supply their (already parsed) outputs;
* numeric string formatting (Python `f"{x:.2f}"`) is elided in rendered
  message text; the surrounding literal text is kept.
-/

set_option linter.unusedVariables false

namespace NexGen

/-- First-match lookup in an association list (Python `dict.get`). -/
def alget {κ β : Type} [DecidableEq κ] : List (κ × β) → κ → Option β
  | [], _ => none
  | p :: t, k => if p.1 = k then some p.2 else alget t k

/-- Update-or-append in an association list (Python `dict[k] = v`). -/
def alset {κ β : Type} [DecidableEq κ] : List (κ × β) → κ → β → List (κ × β)
  | [], k, v => [(k, v)]
  | p :: t, k, v => if p.1 = k then (k, v) :: t else p :: alset t k v

/-! ## Budget settings (`src/nexgen_studio/config.py`, `BudgetSettings`) -/

/-- `BudgetSettings.default_project_limit_usd = 50.0`. -/
def defaultProjectLimitUsd : ℚ := 50

/-- `BudgetSettings.cost_alert_percentages = (95, 100)`, in tuple order. -/
def costAlertPercentages : List Nat := [95, 100]

/-! ## CostEnvelope / CostTracker (`src/nexgen_studio/costs.py`) -/

/-- `CostEnvelope`: per-entity budget limit and spend. -/
structure CostEnvelope where
  limit_usd : ℚ
  spent_usd : ℚ := 0
  deriving Repr, DecidableEq

/-- `CostEnvelope.remaining`: `max(limit - spent, 0.0)`. -/
def CostEnvelope.remaining (e : CostEnvelope) : ℚ :=
  max (e.limit_usd - e.spent_usd) 0

/-- `CostEnvelope.add_cost`: `spent_usd += amount`. -/
def CostEnvelope.add_cost (e : CostEnvelope) (amount : ℚ) : CostEnvelope :=
  { e with spent_usd := e.spent_usd + amount }

/-- `CostTracker`: map from entity id to its envelope. -/
structure CostTracker where
  envelopes : List (String × CostEnvelope) := []
  deriving Repr, DecidableEq

/-- Telemetry event `cost_threshold` with attributes
`entity_id` / `threshold` / `spent` (`costs.py`, `CostTracker.record`). -/
structure CostThresholdEvent where
  entity_id : String
  threshold : Nat
  spent : ℚ
  deriving Repr, DecidableEq

/-- `CostTracker.ensure_envelope`: create the envelope on first use with
`limit_usd or settings.budget.default_project_limit_usd` (Python `or`:
`None` and `0.0` both fall back to the default). -/
def CostTracker.ensure_envelope (t : CostTracker) (entityId : String)
    (limitUsd : Option ℚ) : CostEnvelope × CostTracker :=
  match alget t.envelopes entityId with
  | some env => (env, t)
  | none =>
    let limit := match limitUsd with
      | some l => if l = 0 then defaultProjectLimitUsd else l
      | none => defaultProjectLimitUsd
    let env : CostEnvelope := { limit_usd := limit }
    (env, { envelopes := alset t.envelopes entityId env })

/-- `CostTracker.record(entity_id, amount)`: add the cost, then iterate the
configured alert percentages **in tuple order** and emit a `cost_threshold`
event for the first percentage the current spend percentage reaches
(`break` after the first emission).  There is no per-threshold
deduplication state in this function. -/
def CostTracker.record (t : CostTracker) (entityId : String) (amount : ℚ) :
    CostEnvelope × CostTracker × List CostThresholdEvent :=
  let (env, t) := t.ensure_envelope entityId none
  let env := env.add_cost amount
  let t : CostTracker := { envelopes := alset t.envelopes entityId env }
  let pct : ℚ := if env.limit_usd ≠ 0 then env.spent_usd / env.limit_usd * 100 else 0
  let events : List CostThresholdEvent :=
    match costAlertPercentages.find? (fun (th : Nat) => decide ((th : ℚ) ≤ pct)) with
    | some th => [{ entity_id := entityId, threshold := th, spent := env.spent_usd }]
    | none => []
  (env, t, events)

/-! ## CostMonitor (`src/lewis_ai_system/cost_monitor.py`) -/

/-- `Literal["project", "session"]`. -/
inductive EntityType where
  | project
  | session
  deriving Repr, DecidableEq

/-- `CostSnapshot` dataclass. -/
structure CostSnapshot where
  timestamp : ℚ
  entity_id : String
  entity_type : EntityType
  cumulative_cost : ℚ
  phase : Option String := none
  deriving Repr, DecidableEq

instance : Inhabited CostSnapshot :=
  ⟨{ timestamp := 0, entity_id := "", entity_type := .project, cumulative_cost := 0 }⟩

/-- `CostAnomaly` dataclass.  `alert_type` and `severity` keep the Python
string literals. -/
structure CostAnomaly where
  entity_id : String
  entity_type : EntityType
  alert_type : String
  current_rate : ℚ
  expected_rate : ℚ
  projected_total : ℚ
  budget_limit : ℚ
  timestamp : ℚ
  message : String
  severity : String
  deriving Repr, DecidableEq

/-- `CostMonitor.__init__` state.  `alert_handlers` (callback list) is
external I/O and carries no decision state, so it is not modelled. -/
structure CostMonitor where
  snapshots : List (String × List CostSnapshot) := []
  anomalies : List CostAnomaly := []
  pausedEntities : List String := []
  budgetLimits : List (String × ℚ) := []
  thresholdAlerts : List (String × List Nat) := []
  lastAlertAt : List ((String × String) × ℚ) := []
  alertCooldownSeconds : ℚ := 120
  deriving Repr, DecidableEq

/-- `CostMonitor._determine_severity`.  Python truthiness on
`budget_percentage` (a `float | None`) treats both `None` and `0.0` as
false. -/
def determineSeverity (alertType : String) (budgetPercentage : Option ℚ)
    (multiplier : ℚ) : String :=
  if alertType = "budget_exceeded" then "critical"
  else if alertType = "projected_overrun" then
    match budgetPercentage with
    | some p => if p ≠ 0 ∧ p < 120 then "warning" else "critical"
    | none => "critical"
  else if alertType = "rate_spike" then
    if 3 ≤ multiplier then "critical" else "warning"
  else if alertType = "budget_threshold" then
    match budgetPercentage with
    | some p => if p ≠ 0 ∧ 100 ≤ p then "critical" else "warning"
    | none => "warning"
  else "info"

/-- `CostMonitor._should_emit_alert`: cooldown bookkeeping for alert-handler
dispatch, keyed by `(entity_id, alert_type)`. -/
def shouldEmitAlert (m : CostMonitor) (entityId alertType : String)
    (timestamp : ℚ) : Bool × CostMonitor :=
  match alget m.lastAlertAt (entityId, alertType) with
  | some last =>
    if timestamp - last < m.alertCooldownSeconds then (false, m)
    else (true, { m with lastAlertAt := alset m.lastAlertAt (entityId, alertType) timestamp })
  | none => (true, { m with lastAlertAt := alset m.lastAlertAt (entityId, alertType) timestamp })

/-- `CostMonitor.record_snapshot`: append a snapshot, remember the budget
limit when given, and keep only the trailing 24 hours. -/
def recordSnapshot (m : CostMonitor) (entityId : String) (entityType : EntityType)
    (cumulativeCost : ℚ) (phase : Option String) (budgetLimit : Option ℚ)
    (now : ℚ) : CostMonitor :=
  let snapshot : CostSnapshot :=
    { timestamp := now, entity_id := entityId, entity_type := entityType,
      cumulative_cost := cumulativeCost, phase := phase }
  let m := match budgetLimit with
    | some b => { m with budgetLimits := alset m.budgetLimits entityId b }
    | none => m
  let snaps := (alget m.snapshots entityId).getD []
  let snaps := snaps ++ [snapshot]
  let cutoff := now - 24 * 3600
  let snaps := snaps.filter (fun s => decide (cutoff < s.timestamp))
  { m with snapshots := alset m.snapshots entityId snaps }

/-- Snapshot list of one entity (empty when absent). -/
def entitySnapshots (m : CostMonitor) (entityId : String) : List CostSnapshot :=
  (alget m.snapshots entityId).getD []

/-- `self.snapshots[entity_id][-1].cumulative_cost` — the latest snapshot's
cumulative cost (0 when there is none; only read behind non-emptiness
checks). -/
def latestCumulativeCost (m : CostMonitor) (entityId : String) : ℚ :=
  ((entitySnapshots m entityId).getLastD default).cumulative_cost

/-- `CostMonitor.calculate_cost_rate`: cost per minute between the oldest
and newest snapshot inside the trailing `window_minutes` window. -/
def calculateCostRate (m : CostMonitor) (entityId : String)
    (windowMinutes : ℚ) (now : ℚ) : ℚ :=
  let snaps := entitySnapshots m entityId
  if snaps.length < 2 then 0
  else
    let cutoff := now - windowMinutes * 60
    let recent := snaps.filter (fun s => decide (cutoff < s.timestamp))
    if recent.length < 2 then 0
    else
      let oldest := recent.headD default
      let newest := recent.getLastD default
      let timeDelta := (newest.timestamp - oldest.timestamp) / 60
      let costDelta := newest.cumulative_cost - oldest.cumulative_cost
      if timeDelta = 0 then 0 else costDelta / timeDelta

/-- Stable ascending insertion (for Python `sorted`). -/
def insortBy {α : Type} (le : α → α → Bool) (a : α) : List α → List α
  | [] => [a]
  | b :: bs => if le a b then a :: b :: bs else b :: insortBy le a bs

/-- Stable ascending sort (Python `sorted`). -/
def sortListBy {α : Type} (le : α → α → Bool) (l : List α) : List α :=
  l.foldr (insortBy le) []

/-- `CostMonitor.calculate_historical_rate`: percentile of the per-interval
rates between consecutive (timestamp-sorted) snapshots; requires at least
10 snapshots.  `index = int(len(rates) * percentile)`. -/
def calculateHistoricalRate (m : CostMonitor) (entityId : String)
    (percentile : ℚ) : ℚ :=
  let snaps := entitySnapshots m entityId
  if snaps.length < 10 then 0
  else
    let sortedSnaps := sortListBy (fun a b => decide (a.timestamp ≤ b.timestamp)) snaps
    let rates := (sortedSnaps.zip sortedSnaps.tail).filterMap (fun pc =>
      let timeDelta := (pc.2.timestamp - pc.1.timestamp) / 60
      let costDelta := pc.2.cumulative_cost - pc.1.cumulative_cost
      if 0 < timeDelta then some (costDelta / timeDelta) else none)
    if rates.isEmpty then 0
    else
      let sortedRates := sortListBy (fun a b => decide (a ≤ b)) rates
      let index := (percentile * (sortedRates.length : ℚ)).floor.toNat
      sortedRates.getD (min index (sortedRates.length - 1)) 0

/-- `CostMonitor.project_final_cost`: linear extrapolation
`current_cost / completion_percentage`. -/
def projectFinalCost (m : CostMonitor) (entityId : String)
    (completionPercentage : ℚ) : Option ℚ :=
  match entitySnapshots m entityId with
  | [] => none
  | snaps =>
    if completionPercentage ≤ 0 then none
    else some ((snaps.getLastD default).cumulative_cost / completionPercentage)

/-- The budget-threshold message (`cost_monitor.py` builds
`f"Budget consumption reached {threshold}% (...)"`; the dollar-amount
parenthetical, pure numeric formatting, is elided). -/
def budgetThresholdMessage (threshold : Nat) : String :=
  "Budget consumption reached " ++ toString threshold ++ "%"

/-- One `budget_threshold` `CostAnomaly`. -/
def mkBudgetThresholdAnomaly (entityId : String) (entityType : EntityType)
    (threshold : Nat) (currentRate historicalRate currentCost budgetLimit : ℚ)
    (budgetPercentage : Option ℚ) (now : ℚ) : CostAnomaly :=
  { entity_id := entityId, entity_type := entityType,
    alert_type := "budget_threshold",
    current_rate := currentRate, expected_rate := historicalRate,
    projected_total := currentCost, budget_limit := budgetLimit,
    timestamp := now,
    message := budgetThresholdMessage threshold,
    severity := determineSeverity "budget_threshold" budgetPercentage 1 }

/-- The `for threshold in sorted(...)` loop of `check_for_anomalies`:
skip thresholds already in `triggered_thresholds`, and for each newly
reached threshold add it to the set and emit one anomaly.  Returns the
updated set and the list of newly triggered thresholds (the exact
arguments of the `triggered_thresholds.add(threshold)` calls, in loop
order). -/
def thresholdLoop (pct : ℚ) (triggered : List Nat) :
    List Nat → List Nat × List Nat
  | [] => (triggered, [])
  | th :: rest =>
    if th ∈ triggered then thresholdLoop pct triggered rest
    else if (th : ℚ) ≤ pct then
      let out := thresholdLoop pct (triggered ++ [th]) rest
      (out.1, th :: out.2)
    else thresholdLoop pct triggered rest

/-- `CostMonitor.check_for_anomalies`.  Returns the updated monitor, the
list of anomalies detected by this call (also appended to
`monitor.anomalies`), and the thresholds newly added to the entity's
`triggered_thresholds` set (one `budget_threshold` anomaly is emitted per
element, in order).  Telemetry emission is unconditional per anomaly;
alert-handler dispatch additionally passes through the
`_should_emit_alert` cooldown, which only mutates `last_alert_at`. -/
def checkForAnomalies (m : CostMonitor) (entityId : String)
    (entityType : EntityType) (budgetLimit : Option ℚ)
    (completionPercentage : ℚ) (thresholdMultiplier : ℚ) (now : ℚ) :
    CostMonitor × List CostAnomaly × List Nat :=
  match entitySnapshots m entityId with
  | [] => (m, [], [])
  | snaps =>
    let budgetLimit := budgetLimit.getD ((alget m.budgetLimits entityId).getD defaultProjectLimitUsd)
    let currentCost := latestCumulativeCost m entityId
    let currentRate := calculateCostRate m entityId 10 now
    let historicalRate := calculateHistoricalRate m entityId (95 / 100)
    let budgetPercentage : Option ℚ :=
      if budgetLimit ≠ 0 then some (currentCost / budgetLimit * 100) else none
    let triggered := (alget m.thresholdAlerts entityId).getD []
    let thOut := match budgetPercentage with
      | some pct => thresholdLoop pct triggered (sortListBy (fun a b => decide (a ≤ b)) costAlertPercentages)
      | none => (triggered, [])
    let thresholdAnomalies := thOut.2.map (fun th =>
      mkBudgetThresholdAnomaly entityId entityType th currentRate historicalRate
        currentCost budgetLimit budgetPercentage now)
    let budgetExceededAnomalies : List CostAnomaly :=
      if budgetLimit ≤ currentCost then
        [{ entity_id := entityId, entity_type := entityType,
           alert_type := "budget_exceeded",
           current_rate := currentRate, expected_rate := historicalRate,
           projected_total := currentCost, budget_limit := budgetLimit,
           timestamp := now, message := "Budget exceeded",
           severity := determineSeverity "budget_exceeded" budgetPercentage 1 }]
      else []
    let rateSpikeAnomalies : List CostAnomaly :=
      if 0 < historicalRate ∧ historicalRate * thresholdMultiplier < currentRate then
        let projected := projectFinalCost m entityId completionPercentage
        let multiplier := if historicalRate ≠ 0 then currentRate / historicalRate else 0
        [{ entity_id := entityId, entity_type := entityType,
           alert_type := "rate_spike",
           current_rate := currentRate, expected_rate := historicalRate,
           projected_total := projected.getD currentCost, budget_limit := budgetLimit,
           timestamp := now, message := "Cost rate spike detected",
           severity := determineSeverity "rate_spike" budgetPercentage multiplier }]
      else []
    let overrunAnomalies : List CostAnomaly :=
      if 0 < completionPercentage then
        match projectFinalCost m entityId completionPercentage with
        | some projected =>
          if projected ≠ 0 ∧ budgetLimit * (11 / 10) < projected then
            [{ entity_id := entityId, entity_type := entityType,
               alert_type := "projected_overrun",
               current_rate := currentRate, expected_rate := historicalRate,
               projected_total := projected, budget_limit := budgetLimit,
               timestamp := now, message := "Projected cost overrun",
               severity := determineSeverity "projected_overrun" budgetPercentage 1 }]
          else []
        | none => []
      else []
    let anomalies := thresholdAnomalies ++ budgetExceededAnomalies ++
      rateSpikeAnomalies ++ overrunAnomalies
    let m := { m with thresholdAlerts := alset m.thresholdAlerts entityId thOut.1 }
    let m := { m with anomalies := m.anomalies ++ anomalies }
    let m := anomalies.foldl (fun acc a => (shouldEmitAlert acc a.entity_id a.alert_type a.timestamp).2) m
    (m, anomalies, thOut.2)

/-- `CostMonitor.should_pause_entity`.  Returns `(should_pause, reason)`
and the updated monitor (`paused_entities` grows when pausing). -/
def shouldPauseEntity (m : CostMonitor) (entityId : String)
    (entityType : EntityType) (budgetLimit : Option ℚ)
    (autoPauseEnabled : Bool) (now : ℚ) :
    (Bool × Option String) × CostMonitor :=
  if !autoPauseEnabled then ((false, none), m)
  else if entityId ∈ m.pausedEntities then ((false, none), m)
  else match entitySnapshots m entityId with
  | [] => ((false, none), m)
  | snaps =>
    let budgetLimit := budgetLimit.getD ((alget m.budgetLimits entityId).getD defaultProjectLimitUsd)
    let currentCost := latestCumulativeCost m entityId
    if budgetLimit ≤ currentCost then
      ((true, some "paused_budget"), { m with pausedEntities := entityId :: m.pausedEntities })
    else
      let recentAnomalies := m.anomalies.filter (fun a =>
        a.entity_id = entityId ∧ now - a.timestamp < 300)
      if 2 ≤ recentAnomalies.length then
        ((true, some "paused_anomaly"), { m with pausedEntities := entityId :: m.pausedEntities })
      else ((false, none), m)

/-- `CostMonitor.resume_entity`: discard from the paused set. -/
def resumeEntity (m : CostMonitor) (entityId : String) : CostMonitor :=
  { m with pausedEntities := m.pausedEntities.filter (fun e => e ≠ entityId) }

/-! ## Creative data model (`src/lewis_ai_system/creative/models.py`) -/

/-- `CreativeProjectState` enum. -/
inductive CreativeProjectState where
  | BRIEF_PENDING
  | SCRIPT_PENDING
  | SCRIPT_REVIEW
  | STORYBOARD_PENDING
  | STORYBOARD_READY
  | RENDER_PENDING
  | PREVIEW_PENDING
  | PREVIEW_READY
  | VALIDATION_PENDING
  | DISTRIBUTION_PENDING
  | COMPLETED
  | PAUSED
  | FAILED
  deriving Repr, DecidableEq

/-- `StoryboardPanel` (consistency-control extras keep their defaults and
are not produced by `_generate_single_panel`, so they are elided). -/
structure StoryboardPanel where
  scene_number : Nat
  description : String
  duration_seconds : Nat
  camera_notes : Option String := none
  visual_reference_path : Option String := none
  quality_score : Option ℚ := none
  status : String := "draft"
  deriving Repr, DecidableEq

/-- `GeneratedShotAsset` (fields carried by the pause/resume claims). -/
structure GeneratedShotAsset where
  scene_number : Nat
  prompt : String
  provider : String
  video_url : Option String := none
  status : String := "processing"
  deriving Repr, DecidableEq

/-- `CreativeProject` — identity, content, control and budget fields used
by the workflow and the pause/resume endpoints. -/
structure CreativeProject where
  id : String
  tenant_id : String
  title : String
  brief : String
  summary : Option String := none
  duration_seconds : Nat := 30
  style : String := "cinematic"
  aspect_ratio : String := "16:9"
  budget_limit_usd : ℚ := 50
  cost_usd : ℚ := 0
  state : CreativeProjectState := .BRIEF_PENDING
  pre_pause_state : Option CreativeProjectState := none
  script : Option String := none
  storyboard : List StoryboardPanel := []
  shots : List GeneratedShotAsset := []
  pause_reason : Option String := none
  paused_at : Option ℚ := none
  auto_pause_enabled : Bool := true
  deriving Repr, DecidableEq

/-- `CreativeProject.mark_state` (the `updated_at` stamp is wall-clock
metadata and not modelled). -/
def CreativeProject.mark_state (p : CreativeProject)
    (newState : CreativeProjectState) : CreativeProject :=
  { p with state := newState }

/-! ## CreativeOrchestrator (`src/nexgen_studio/creative/workflow.py`) -/

/-- The `stages` list of `_estimate_completion`. -/
def completionStages : List CreativeProjectState :=
  [.BRIEF_PENDING, .SCRIPT_PENDING, .SCRIPT_REVIEW, .STORYBOARD_PENDING,
   .STORYBOARD_READY, .RENDER_PENDING, .PREVIEW_PENDING, .PREVIEW_READY,
   .VALIDATION_PENDING, .DISTRIBUTION_PENDING, .COMPLETED]

/-- `CreativeOrchestrator._estimate_completion`. -/
def estimateCompletion (p : CreativeProject) : ℚ :=
  let state := match p.state, p.pre_pause_state with
    | .PAUSED, some pre => pre
    | s, _ => s
  match completionStages.findIdx? (fun s => s = state) with
  | some idx => (idx : ℚ) / ((completionStages.length : ℚ) - 1)
  | none => 1

/-- Combined mutable context of a creative stage: the project plus the
module-level `cost_tracker` and `cost_monitor` singletons. -/
structure CreativeCtx where
  project : CreativeProject
  tracker : CostTracker := {}
  monitor : CostMonitor := {}
  deriving Repr, DecidableEq

/-- `CreativeOrchestrator._record_cost_guardrail(project, amount, phase)`:
add the amount to `cost_usd`, record with the tracker and the monitor, run
anomaly checks, then ask `should_pause_entity`; on pause, save
`pre_pause_state`, set `pause_reason` (`reason or "cost_guardrail"`) and
`paused_at`, and mark the project `PAUSED`.  Returns `True` iff paused. -/
def recordCostGuardrail (c : CreativeCtx) (amount : ℚ) (phase : String)
    (now : ℚ) : CreativeCtx × Bool :=
  let p := { c.project with cost_usd := c.project.cost_usd + amount }
  let tracker := (c.tracker.record p.id amount).2.1
  let monitor := recordSnapshot c.monitor p.id .project p.cost_usd (some phase)
    (some p.budget_limit_usd) now
  let completion := estimateCompletion p
  let monitor := (checkForAnomalies monitor p.id .project (some p.budget_limit_usd)
    completion 2 now).1
  let pauseOut := shouldPauseEntity monitor p.id .project (some p.budget_limit_usd)
    p.auto_pause_enabled now
  let paused := pauseOut.1.1
  let reason := pauseOut.1.2
  let monitor := pauseOut.2
  let p := if paused then
      { p with pre_pause_state := some p.state,
               pause_reason := some (reason.getD "cost_guardrail"),
               paused_at := some now,
               state := .PAUSED }
    else p
  ({ project := p, tracker := tracker, monitor := monitor }, paused)

/-- `CreativeOrchestrator._expand_brief`: write the planning agent's
summary (`enriched["summary"]`, an external capability output, passed as
`summaryText`), move to `SCRIPT_PENDING`, then run the cost guardrail with
amount `0.02`, phase `"brief"`. -/
def expandBrief (summaryText : String) (c : CreativeCtx) (now : ℚ) :
    CreativeCtx × Bool :=
  let p := { c.project with summary := some summaryText }
  let p := p.mark_state .SCRIPT_PENDING
  recordCostGuardrail { c with project := p } (2 / 100) "brief" now

/-- `CreativeOrchestrator._generate_script`: write the creative agent's
script (external capability output), then run the cost guardrail with
amount `0.05`, phase `"script"`.  The state change to `SCRIPT_REVIEW`
happens in the caller (`advance`) only when the stage did not pause. -/
def generateScript (scriptText : String) (c : CreativeCtx) (now : ℚ) :
    CreativeCtx × Bool :=
  let p := { c.project with script := some scriptText }
  recordCostGuardrail { c with project := p } (5 / 100) "script" now

/-! ### Storyboard generation (`_generate_storyboard`, `_generate_single_panel`) -/

/-- One scene dict produced by `_split_into_scenes` (via the creative
agent's `split_script`). -/
structure SceneInfo where
  description : String
  visual_cues : String
  estimated_duration : Option Nat := none
  deriving Repr, DecidableEq

instance : Inhabited SceneInfo := ⟨{ description := "", visual_cues := "" }⟩

instance : Inhabited StoryboardPanel :=
  ⟨{ scene_number := 0, description := "", duration_seconds := 0 }⟩

/-- `CreativeOrchestrator._generate_single_panel(idx, scene_info, total)`:
builds the panel for scene `idx` from the scene info and the two
capability outputs (quality evaluation score and the generated visual
URL).  `scene_info.get("estimated_duration", 5)`; `visual_cues or
"Auto-generated shot"`. -/
def generateSinglePanel (idx : Nat) (scene : SceneInfo) (evalScore : ℚ)
    (visualUrl : String) : StoryboardPanel :=
  { scene_number := idx,
    description := scene.description,
    duration_seconds := scene.estimated_duration.getD 5,
    camera_notes := some (if scene.visual_cues = "" then "Auto-generated shot" else scene.visual_cues),
    visual_reference_path := some visualUrl,
    quality_score := some evalScore,
    status := "draft" }

/-- `asyncio.gather` semantics: tasks complete in an arbitrary order
(`completionOrder`, a permutation of the task indices), each completion
writes its result into the slot of the task's *submission* index, and the
joined list is read back in submission order. -/
def asyncGather {α : Type} (tasks : List α) (completionOrder : List Nat) : List α :=
  let slots : List (Option α) :=
    completionOrder.foldl (fun acc i => acc.set i tasks[i]?)
      (List.replicate tasks.length none)
  (List.range tasks.length).filterMap (fun i => (slots[i]?).getD none)

/-- `CreativeOrchestrator._generate_storyboard`, panel-assembly part: the
tasks are created with `enumerate(scenes_data, start=1)` (so task `i`
carries `scene_number = i + 1` for 0-based `i`), run concurrently, joined
with `asyncio.gather`, and the joined list is written to
`project.storyboard`.  The per-panel capability outputs are supplied by
the `evalScores` / `visualUrls` oracles (indexed by 0-based task index);
`completionOrder` is the order in which the concurrent tasks finish. -/
def generateStoryboardPanels (scenes : List SceneInfo) (evalScores : Nat → ℚ)
    (visualUrls : Nat → String) (completionOrder : List Nat) :
    List StoryboardPanel :=
  let tasks := (List.range scenes.length).map (fun i =>
    generateSinglePanel (i + 1) (scenes.getD i default) (evalScores i) (visualUrls i))
  asyncGather tasks completionOrder

/-- `CreativeOrchestrator._generate_storyboard`: split the script into
scenes (capability), generate the panels concurrently, store the joined
list in `project.storyboard`, then run the cost guardrail with amount
`0.08`, phase `"storyboard"`. -/
def generateStoryboard (scenes : List SceneInfo) (evalScores : Nat → ℚ)
    (visualUrls : Nat → String) (completionOrder : List Nat)
    (c : CreativeCtx) (now : ℚ) : CreativeCtx × Bool :=
  let panels := generateStoryboardPanels scenes evalScores visualUrls completionOrder
  let p := { c.project with storyboard := panels }
  recordCostGuardrail { c with project := p } (8 / 100) "storyboard" now

/-! ## Pause / resume endpoints (`src/lewis_ai_system/routers/creative.py`) -/

/-- `pause_project` endpoint body (repository load/persist elided): reject
when already paused, otherwise save `pre_pause_state`, set
`pause_reason`/`paused_at` and mark `PAUSED`. -/
def pauseProject (p : CreativeProject) (reason : String) (now : ℚ) :
    Except String CreativeProject :=
  if p.state = .PAUSED then .error "Project is already paused"
  else
    let p := { p with pre_pause_state := some p.state,
                      pause_reason := some reason,
                      paused_at := some now }
    .ok (p.mark_state .PAUSED)

/-- `resume_project` endpoint body (repository load/persist elided):
reject when not paused; restore `state` from `pre_pause_state` (falling
back to `BRIEF_PENDING` when it is unset), then clear `pre_pause_state`,
`pause_reason` and `paused_at`.  The endpoint makes no orchestrator call
(no stage re-runs) and never touches the cost monitor (in particular it
does not call `CostMonitor.resume_entity`). -/
def resumeProject (p : CreativeProject) : Except String CreativeProject :=
  if p.state ≠ .PAUSED then .error "Project is not paused"
  else
    let p := match p.pre_pause_state with
      | some pre => p.mark_state pre
      | none => p.mark_state .BRIEF_PENDING
    .ok { p with pre_pause_state := none, pause_reason := none, paused_at := none }

/-! ## General data model (`src/nexgen_studio/general/models.py`) -/

/-- `GeneralSessionState` enum. -/
inductive GeneralSessionState where
  | ACTIVE
  | COMPLETED
  | FAILED
  | PAUSED
  deriving Repr, DecidableEq

/-- Python exceptions reachable in the general loop.
`GuardrailTriggered(RuntimeError)` carries `(reason, detail)`; since it
derives from `RuntimeError` (and therefore from `Exception`), a Python
`except Exception` handler catches it — the embedding's generic handlers
must therefore match **both** constructors. -/
inductive PyError where
  | guardrail (reason : String) (detail : String)
  | other (message : String)
  deriving Repr, DecidableEq

/-- `str(exc)` — `GuardrailTriggered.__init__` passes `detail or reason`
to `RuntimeError`, so its `str` is the detail. -/
def PyError.text : PyError → String
  | .guardrail _ detail => detail
  | .other message => message

/-- The recorded output of a tool call (`ToolCallRecord.output`:
`output if isinstance(output, dict) else {"text": str(output)}`; the
error path stores `{"error": str(e)}`). -/
inductive ToolOutput where
  | payload (text : String)
  | errObj (msg : String)
  deriving Repr, DecidableEq

/-- Rendering used for `str(output)` in the transcript message. -/
def ToolOutput.render : ToolOutput → String
  | .payload text => text
  | .errObj msg => "error: " ++ msg

/-- `ToolCallRecord` (the `created_at` wall-clock stamp is not modelled). -/
structure ToolCallRecord where
  step : Nat
  tool : String
  arguments : String
  output : ToolOutput
  cost_usd : ℚ
  decision_path : String := "ReAct Agent Action"
  deriving Repr, DecidableEq

/-- `GeneralSession` (uploads and timestamps are not modelled). -/
structure GeneralSession where
  id : String
  tenant_id : String
  goal : String
  state : GeneralSessionState := .ACTIVE
  max_iterations : Nat := 8
  iteration : Nat := 0
  budget_limit_usd : ℚ := 5
  spent_usd : ℚ := 0
  auto_pause_enabled : Bool := true
  pause_reason : Option String := none
  summary : Option String := none
  messages : List String := []
  tool_calls : List ToolCallRecord := []
  deriving Repr, DecidableEq

/-- `GeneralSession.mark_state`. -/
def GeneralSession.mark_state (s : GeneralSession)
    (state : GeneralSessionState) : GeneralSession :=
  { s with state := state }

/-! ## ToolRuntime (`src/lewis_ai_system/tooling.py`) -/

/-- The tool registry plus the behaviour of the registered tools'
`run` methods (external capabilities): for a registered name and an input,
either a result `(output, cost_usd)` or a raised exception. -/
structure ToolRuntimeModel where
  tools : List String
  run : String → String → Except PyError (String × ℚ)

/-- `ToolRuntime.execute`: raise `ToolExecutionError` (an ordinary
`RuntimeError`) for an unknown tool name, otherwise run the tool
(telemetry `tool_start` / `tool_complete` events carry no state). -/
def ToolRuntimeModel.execute (rt : ToolRuntimeModel) (name input : String) :
    Except PyError (String × ℚ) :=
  if name ∈ rt.tools then rt.run name input
  else .error (.other ("Unknown tool '" ++ name ++ "'"))

/-! ## SessionRecordingToolRuntime (`src/nexgen_studio/general/session.py`) -/

/-- The general-mode context a step mutates: the session plus the
module-level `cost_tracker` singleton, with instrumentation counters for
the capability calls made (LLM completions and underlying tool `run`
invocations). -/
structure GenCtx where
  session : GeneralSession
  tracker : CostTracker := {}
  llmCalls : Nat := 0
  toolExecs : Nat := 0
  deriving Repr, DecidableEq

/-- `pause_reason` text for the iteration guardrail
(`f"Reached max iterations ({max_iterations})"`). -/
def maxIterationsReason (maxIterations : Nat) : String :=
  "Reached max iterations (" ++ toString maxIterations ++ ")"

/-- `pause_reason` text for the budget guardrail
(`f"Budget limit hit (${budget_limit_usd:.2f})"`, decimal formatting
elided). -/
def budgetLimitReason : String :=
  "Budget limit hit"

/-- `SessionRecordingToolRuntime._ensure_budget_and_iterations`: raise
`GuardrailTriggered` when the session is not active, or (if auto-pause is
enabled) when the iteration or budget limit is reached — in the latter two
cases the session is paused (reason, state, transcript line) *before* the
raise, so the error carries the mutated session. -/
def ensureBudgetAndIterations (s : GeneralSession) :
    Except (GeneralSession × PyError) GeneralSession :=
  if s.state ≠ .ACTIVE then
    .error (s, .guardrail "session_not_active" "Session is not active")
  else if !s.auto_pause_enabled then .ok s
  else if s.max_iterations ≤ s.iteration then
    let reason := maxIterationsReason s.max_iterations
    let s := { s with pause_reason := some reason, state := .PAUSED,
                      messages := s.messages ++ [reason] }
    .error (s, .guardrail "max_iterations" reason)
  else if s.budget_limit_usd ≤ s.spent_usd then
    let reason := budgetLimitReason
    let s := { s with pause_reason := some reason, state := .PAUSED,
                      messages := s.messages ++ [reason] }
    .error (s, .guardrail "budget_exceeded" reason)
  else .ok s

/-- The transcript line appended per tool call
(`f"Tool: {name}\nOutput: {str(output)[:500]}..."`). -/
def toolTranscriptLine (name : String) (output : ToolOutput) : String :=
  "Tool: " ++ name ++ "\nOutput: " ++ (output.render.take 500) ++ "..."

/-- `SessionRecordingToolRuntime.execute`: pre-guardrail check, run the
tool; `except GuardrailTriggered: raise`, while any other exception is
converted to `output = {"error": str(e)}` with `cost = 0.0`; then update
the session (spend, iteration, tracker record, `ToolCallRecord`,
transcript line) and re-run the guardrail check.  On the ordinary-failure
path the final `return result` refers to a variable that was never bound,
so CPython raises `UnboundLocalError` — an ordinary exception — *after*
the session updates.  This method is reachable only from direct callers
(the test suite invokes it as `recording_runtime.execute(...)`); the
ReAct loop itself never reaches it, because it looks up a nonexistent
`execute_async` attribute instead — see `reactStep`. -/
def recordingExecute (rt : ToolRuntimeModel) (ctx : GenCtx)
    (name input : String) : Except (GenCtx × PyError) (GenCtx × String) :=
  match ensureBudgetAndIterations ctx.session with
  | .error (s, e) => .error ({ ctx with session := s }, e)
  | .ok s =>
    let ctx := { ctx with session := s, toolExecs := ctx.toolExecs + 1 }
    match rt.execute name input with
    | .error (.guardrail reason detail) =>
      .error (ctx, .guardrail reason detail)
    | .error (.other msg) =>
      let output := ToolOutput.errObj msg
      let cost : ℚ := 0
      let s := ctx.session
      let s := { s with spent_usd := s.spent_usd + cost, iteration := s.iteration + 1 }
      let tracker := (ctx.tracker.record s.id cost).2.1
      let s := { s with
        tool_calls := s.tool_calls ++
          [{ step := s.iteration, tool := name, arguments := input,
             output := output, cost_usd := cost }],
        messages := s.messages ++ [toolTranscriptLine name output] }
      match ensureBudgetAndIterations s with
      | .error (s, e) => .error ({ ctx with session := s, tracker := tracker }, e)
      | .ok s =>
        .error ({ ctx with session := s, tracker := tracker },
          .other "UnboundLocalError: local variable 'result' referenced before assignment")
    | .ok (outText, cost) =>
      let output := ToolOutput.payload outText
      let s := ctx.session
      let s := { s with spent_usd := s.spent_usd + cost, iteration := s.iteration + 1 }
      let tracker := (ctx.tracker.record s.id cost).2.1
      let s := { s with
        tool_calls := s.tool_calls ++
          [{ step := s.iteration, tool := name, arguments := input,
             output := output, cost_usd := cost }],
        messages := s.messages ++ [toolTranscriptLine name output] }
      match ensureBudgetAndIterations s with
      | .error (s, e) => .error ({ ctx with session := s, tracker := tracker }, e)
      | .ok s => .ok ({ ctx with session := s, tracker := tracker }, outText)

/-! ## GeneralAgent.react_loop (`src/lewis_ai_system/agents/general.py`) -/

/-- An LLM response of the ReAct loop, abstracted to its parse outcome:
it contains `"Final Answer:"`, or a parseable `Action` / `Action Input`
pair, or neither (in which case the loop returns the raw response). -/
inductive LLMResponse where
  | finalAnswer (text : String)
  | action (name : String) (input : String)
  | noAction (text : String)
  deriving Repr, DecidableEq

/-- `str(AttributeError)` for the `tool_runtime.execute_async` attribute
lookup in `react_loop` (`general.py:126`).  The runtime object handed to
the loop by `run_iteration` is the `SessionRecordingToolRuntime` wrapper,
which defines only `execute` and no `__getattr__`; `execute_async` is
defined nowhere in the repository (`ToolRuntime` too defines only
`execute`), so the lookup raises `AttributeError` — an ordinary
exception. -/
def executeAsyncAttributeError : PyError :=
  .other "'SessionRecordingToolRuntime' object has no attribute 'execute_async'"

/-- One `Action` step of the loop body (`react_loop` lines 122–137) as the
program actually runs it.  The structure of the Python code is

    try:                                   # outer handler: except Exception
        ...parse...
        observation = "tool not found"
        if action_name in tool_runtime._tools:
            try:
                result = await tool_runtime.execute_async(...)   # line 126
                observation = "Observation: ..."
            except GuardrailTriggered:
                raise
            except Exception as e:
                observation = "Tool execution failed: ..."
    except Exception as e:
        observation = "Failed to parse or execute action: ..."

On line 126 the attribute lookup itself raises `AttributeError` (see
`executeAsyncAttributeError`) before the request is built or any wrapper
code runs; it is not a `GuardrailTriggered`, so the inner generic handler
converts it to the observation string.  Consequently the wrapper's
guardrail checks, spend/iteration accounting and session recording
(`recordingExecute`) are unreachable from the loop, the session is not
touched by a tool step, and no exception leaves the step. -/
def reactStep (rt : ToolRuntimeModel) (ctx : GenCtx) (name input : String) :
    GenCtx × String :=
  if name ∈ rt.tools then
    (ctx, "Observation: Tool execution failed: " ++ executeAsyncAttributeError.text)
  else
    (ctx, "Observation: Error: Tool '" ++ name ++ "' not found.")

/-- `react_loop`'s fallback answer when `max_steps` is exhausted. -/
def stepLimitAnswer : String :=
  "I could not answer the question within the step limit."

/-- `GeneralAgent.react_loop(query, tool_runtime, max_steps)`: the loop
over at most `maxSteps` LLM completions.  `oracle i` is the provider
response of the `i`-th completion (an external capability, counted in
`llmCalls`).  The return type allows a raised exception to escape the
loop (that is what `run_iteration`'s handlers expect), but no step ever
produces one — see `reactStep`. -/
def reactLoop (rt : ToolRuntimeModel) (oracle : Nat → LLMResponse) :
    Nat → Nat → GenCtx → Except (GenCtx × PyError) (GenCtx × String)
  | 0, _, ctx => .ok (ctx, stepLimitAnswer)
  | fuel + 1, i, ctx =>
    let ctx := { ctx with llmCalls := ctx.llmCalls + 1 }
    match oracle i with
    | .finalAnswer text => .ok (ctx, text)
    | .noAction text => .ok (ctx, text)
    | .action name input =>
      let out := reactStep rt ctx name input
      reactLoop rt oracle fuel (i + 1) out.1

/-! ## GeneralModeOrchestrator (`src/nexgen_studio/general/session.py`) -/

/-- `GeneralModeOrchestrator._can_continue`: early guard before the loop.
Skipped entirely when `auto_pause_enabled` is false; otherwise pauses the
session (reason, transcript line, state) when the iteration or budget
limit is reached. -/
def canContinue (s : GeneralSession) : Bool × GeneralSession :=
  if !s.auto_pause_enabled then (true, s)
  else if s.max_iterations ≤ s.iteration then
    let reason := maxIterationsReason s.max_iterations
    (false, { s with pause_reason := some reason,
                     messages := s.messages ++ [reason],
                     state := .PAUSED })
  else if s.budget_limit_usd ≤ s.spent_usd then
    let reason := budgetLimitReason
    (false, { s with pause_reason := some reason,
                     messages := s.messages ++ [reason],
                     state := .PAUSED })
  else (true, s)

/-- `GeneralModeOrchestrator._maybe_compress_history`: when the transcript
exceeds `compression_threshold` messages, replace everything but the most
recent `memory_window` with one summarized entry produced by the formatter
capability (`summarizer`). -/
def maybeCompressHistory (summarizer : String → String)
    (memoryWindow compressionThreshold : Nat) (s : GeneralSession) :
    GeneralSession :=
  if s.messages.length ≤ compressionThreshold then s
  else
    let preserved := s.messages.drop (s.messages.length - memoryWindow)
    let history := s.messages.take (s.messages.length - memoryWindow)
    { s with messages :=
        ("[history summary] " ++ summarizer (String.intercalate "\n" history)) :: preserved }

/-- `GeneralModeOrchestrator.run_iteration(session_id, prompt_text)`
(repository load/persist elided; the orchestrator defaults are
`memory_window = 5`, `compression_threshold = 25`).  Rejects non-ACTIVE
sessions (`ValueError`); pre-checks the guardrails and returns the paused
session immediately (zero capability calls) when `_can_continue` fails;
otherwise runs the ReAct loop with
`remaining_steps = max(max_iterations - iteration, 1)` and catches
`GuardrailTriggered` (→ PAUSED) or any other exception (→ FAILED).
`_maybe_store_memory` (vector-db write) does not mutate the session. -/
def runIteration (rt : ToolRuntimeModel) (oracle : Nat → LLMResponse)
    (summarizer : String → String) (ctx : GenCtx)
    (promptText : Option String) : Except String GenCtx :=
  if ctx.session.state ≠ .ACTIVE then
    .error "Session is not active"
  else
    let out := canContinue ctx.session
    if !out.1 then .ok { ctx with session := out.2 }
    else
      let s := out.2
      let s := match promptText with
        | some p => { s with goal := p, messages := s.messages ++ ["User: " ++ p] }
        | none => s
      let remaining := max (s.max_iterations - s.iteration) 1
      let ctx := { ctx with session := s }
      let ctx := match reactLoop rt oracle remaining 0 ctx with
        | .ok (ctx, answer) =>
          { ctx with session :=
            { ctx.session with
                summary := some answer,
                messages := ctx.session.messages ++ ["Final Answer: " ++ answer],
                state := .COMPLETED } }
        | .error (ctx, .guardrail reason detail) =>
          { ctx with session :=
            { ctx.session with pause_reason := some reason, state := .PAUSED } }
        | .error (ctx, .other msg) =>
          { ctx with session :=
            { ctx.session with
                messages := ctx.session.messages ++ ["Error: " ++ msg],
                state := .FAILED } }
      .ok { ctx with session := maybeCompressHistory summarizer 5 25 ctx.session }

/-! ## Sequences of guardrail / monitor operations -/

/-- A sequence of `_record_cost_guardrail` calls (amount, phase, time),
returning the final context and the per-call pause flags. -/
def guardrailRun : CreativeCtx → List (ℚ × String × ℚ) → CreativeCtx × List Bool
  | c, [] => (c, [])
  | c, x :: rest =>
    let out := recordCostGuardrail c x.1 x.2.1 x.2.2
    let next := guardrailRun out.1 rest
    (next.1, out.2 :: next.2)

/-- The `cost_usd` trajectory across a sequence of
`_record_cost_guardrail` calls (value after each call). -/
def guardrailCosts : CreativeCtx → List (ℚ × String × ℚ) → List ℚ
  | _, [] => []
  | c, x :: rest =>
    let c1 := (recordCostGuardrail c x.1 x.2.1 x.2.2).1
    c1.project.cost_usd :: guardrailCosts c1 rest

/-- One ledger step of the monitor, as performed after every unit of work:
`record_snapshot` followed by `check_for_anomalies` (with the source's
default `completion_percentage = 0.5` and `threshold_multiplier = 2.0`);
`costNow = (cumulative_cost, timestamp)`. -/
def monitorStep (entityId : String) (limit : ℚ) (m : CostMonitor)
    (costNow : ℚ × ℚ) : CostMonitor × List CostAnomaly × List Nat :=
  let m := recordSnapshot m entityId .project costNow.1 none (some limit) costNow.2
  checkForAnomalies m entityId .project (some limit) (1 / 2) 2 costNow.2

/-- A sequence of `monitorStep`s; returns the final monitor together with,
per call, the anomalies detected and the thresholds newly triggered. -/
def monitorSeq (entityId : String) (limit : ℚ) :
    CostMonitor → List (ℚ × ℚ) → CostMonitor × List (List CostAnomaly × List Nat)
  | m, [] => (m, [])
  | m, step :: rest =>
    let out := monitorStep entityId limit m step
    let next := monitorSeq entityId limit out.1 rest
    (next.1, out.2 :: next.2)

/-- The `(entity, threshold)` identification of a `budget_threshold`
anomaly: by entity id and alert type (each call emits one such anomaly
per newly triggered threshold). -/
def isBudgetThresholdFor (entityId : String) (a : CostAnomaly) : Bool :=
  a.entity_id = entityId && a.alert_type = "budget_threshold"

/-! ## Concrete fixtures for the closed evaluations -/

/-- A fresh creative project with the given budget limit. -/
def exProject (budget : ℚ) : CreativeProject :=
  { id := "proj-1", tenant_id := "demo", title := "Demo", brief := "A brief",
    budget_limit_usd := budget }

/-- A paused creative project that saved `SCRIPT_REVIEW`. -/
def exPausedProject : CreativeProject :=
  { exProject 50 with state := .PAUSED, pre_pause_state := some .SCRIPT_REVIEW,
                      pause_reason := some "user_request", paused_at := some 10 }

/-- A fresh general session (two steps allowed, one-dollar budget). -/
def exSession : GeneralSession :=
  { id := "sess-1", tenant_id := "demo", goal := "research", max_iterations := 2,
    budget_limit_usd := 1 }

/-- A runtime with one registered tool whose `run` always returns the
given outcome. -/
def exRuntime (out : Except PyError (String × ℚ)) : ToolRuntimeModel :=
  { tools := ["t"], run := fun _ _ => out }

/-- An LLM script: one tool action, then a final answer. -/
def exOracle : Nat → LLMResponse :=
  fun i => if i = 0 then .action "t" "arg" else .finalAnswer "done"

/-- An LLM script that immediately produces a final answer. -/
def exFinalOracle : Nat → LLMResponse :=
  fun _ => .finalAnswer "hi"

/-- `exSession` with auto-pause disabled and the iteration limit reached. -/
def exSessionNoAuto : GeneralSession :=
  { exSession with auto_pause_enabled := false, iteration := 2 }

/-- `exSession` with the iteration limit reached. -/
def exSessionAtLimit : GeneralSession :=
  { exSession with iteration := 2 }

/-- `exSession` with room for several steps. -/
def exSessionFive : GeneralSession :=
  { exSession with max_iterations := 5 }

/-- Two scenes for a concrete storyboard run. -/
def exScenes : List SceneInfo :=
  [{ description := "opening", visual_cues := "wide shot" },
   { description := "closing", visual_cues := "" }]

/-- A monitor that has already auto-paused `proj-1`. -/
def exPausedMonitor : CostMonitor :=
  { pausedEntities := ["proj-1"] }

/-!
# Theorems
-/

attribute [local semireducible] Rat.add Rat.sub Rat.mul Rat.inv Rat.ofScientific

set_option maxRecDepth 4000

theorem alget_alset_self {κ β : Type} [DecidableEq κ] (l : List (κ × β)) (k : κ) (v : β) :
    alget (alset l k v) k = some v := by
  induction l with
  | nil => simp [alget, alset]
  | cons p t ih =>
    by_cases hp : p.1 = k
    · simp [alget, alset, hp]
    · simp [alget, alset, hp, ih]

theorem alget_alset_ne {κ β : Type} [DecidableEq κ] (l : List (κ × β)) (k k' : κ) (v : β)
    (h : k' ≠ k) : alget (alset l k v) k' = alget l k' := by
  induction l with
  | nil => simp [alget, alset, Ne.symm h]
  | cons p t ih =>
    by_cases hp : p.1 = k
    · simp [alget, alset, hp, Ne.symm h, h]
    · by_cases hp' : p.1 = k'
      · simp [alget, alset, hp, hp', h]
      · simp [alget, alset, hp, hp', ih]

/-! ### CostMonitor helper lemmas -/

theorem shouldEmitAlert_pausedEntities (m : CostMonitor) (e t : String) (ts : ℚ) :
    ((shouldEmitAlert m e t ts).2).pausedEntities = m.pausedEntities := by
  unfold shouldEmitAlert
  cases h : alget m.lastAlertAt (e, t) with
  | none => rfl
  | some last => by_cases hc : ts - last < m.alertCooldownSeconds <;> simp [hc]

theorem shouldEmitAlert_thresholdAlerts (m : CostMonitor) (e t : String) (ts : ℚ) :
    ((shouldEmitAlert m e t ts).2).thresholdAlerts = m.thresholdAlerts := by
  unfold shouldEmitAlert
  cases h : alget m.lastAlertAt (e, t) with
  | none => rfl
  | some last => by_cases hc : ts - last < m.alertCooldownSeconds <;> simp [hc]

theorem foldl_shouldEmitAlert_pausedEntities (l : List CostAnomaly) (m : CostMonitor) :
    (l.foldl (fun acc a => (shouldEmitAlert acc a.entity_id a.alert_type a.timestamp).2) m).pausedEntities
      = m.pausedEntities := by
  induction l generalizing m with
  | nil => rfl
  | cons a t ih => rw [List.foldl_cons, ih, shouldEmitAlert_pausedEntities]

theorem foldl_shouldEmitAlert_thresholdAlerts (l : List CostAnomaly) (m : CostMonitor) :
    (l.foldl (fun acc a => (shouldEmitAlert acc a.entity_id a.alert_type a.timestamp).2) m).thresholdAlerts
      = m.thresholdAlerts := by
  induction l generalizing m with
  | nil => rfl
  | cons a t ih => rw [List.foldl_cons, ih, shouldEmitAlert_thresholdAlerts]

theorem recordSnapshot_pausedEntities (m : CostMonitor) (id : String)
    (et : EntityType) (cost : ℚ) (ph : Option String) (bl : Option ℚ) (now : ℚ) :
    (recordSnapshot m id et cost ph bl now).pausedEntities = m.pausedEntities := by
  unfold recordSnapshot
  cases bl <;> rfl

theorem recordSnapshot_thresholdAlerts (m : CostMonitor) (id : String)
    (et : EntityType) (cost : ℚ) (ph : Option String) (bl : Option ℚ) (now : ℚ) :
    (recordSnapshot m id et cost ph bl now).thresholdAlerts = m.thresholdAlerts := by
  unfold recordSnapshot
  cases bl <;> rfl

theorem checkForAnomalies_pausedEntities (m : CostMonitor) (id : String)
    (et : EntityType) (bl : Option ℚ) (comp mult now : ℚ) :
    ((checkForAnomalies m id et bl comp mult now).1).pausedEntities = m.pausedEntities := by
  unfold checkForAnomalies
  cases h : entitySnapshots m id with
  | nil => rfl
  | cons s rest =>
    simp only
    rw [foldl_shouldEmitAlert_pausedEntities]

theorem shouldPauseEntity_already_paused (m : CostMonitor) (id : String)
    (et : EntityType) (bl : Option ℚ) (ap : Bool) (now : ℚ)
    (h : id ∈ m.pausedEntities) :
    shouldPauseEntity m id et bl ap now = ((false, none), m) := by
  unfold shouldPauseEntity
  cases ap with
  | false => simp
  | true => simp [h]

theorem shouldPauseEntity_true_mem (m : CostMonitor) (id : String)
    (et : EntityType) (bl : Option ℚ) (ap : Bool) (now : ℚ)
    (out : (Bool × Option String) × CostMonitor)
    (hout : shouldPauseEntity m id et bl ap now = out)
    (htrue : out.1.1 = true) :
    id ∈ out.2.pausedEntities := by
  unfold shouldPauseEntity at hout
  dsimp only at hout
  split at hout
  · rw [← hout] at htrue; simp at htrue
  · split at hout
    · rw [← hout] at htrue; simp at htrue
    · split at hout
      · rw [← hout] at htrue; simp at htrue
      · split at hout
        · rw [← hout]; simp
        · split at hout
          · rw [← hout]; simp
          · rw [← hout] at htrue; simp at htrue

theorem shouldPauseEntity_monitor (m : CostMonitor) (id : String)
    (et : EntityType) (bl : Option ℚ) (ap : Bool) (now : ℚ) :
    (shouldPauseEntity m id et bl ap now).2 = m ∨
    (shouldPauseEntity m id et bl ap now).2 = { m with pausedEntities := id :: m.pausedEntities } := by
  unfold shouldPauseEntity
  dsimp only
  split
  · left; rfl
  · split
    · left; rfl
    · split
      · left; rfl
      · split
        · right; rfl
        · split
          · right; rfl
          · left; rfl

/-! ### Claim C3 -/

/-- Claim C3: `should_pause_entity` returns `(False, None)` when auto-pause
is disabled or the entity is already paused; otherwise, with snapshots
present, it returns `(True, "paused_budget")` when the latest snapshot's
cumulative cost has reached the budget limit, `(True, "paused_anomaly")`
when at least two anomalies were recorded for the entity within the
trailing five minutes, and `(False, None)` in all other cases (including
the no-snapshot case). -/
theorem C3_shouldPauseEntity_spec (m : CostMonitor) (entityId : String)
    (et : EntityType) (bl : Option ℚ) (ap : Bool) (now : ℚ) :
    (shouldPauseEntity m entityId et bl ap now).1 =
      if ap = false then (false, none)
      else if entityId ∈ m.pausedEntities then (false, none)
      else if entitySnapshots m entityId = [] then (false, none)
      else if bl.getD ((alget m.budgetLimits entityId).getD defaultProjectLimitUsd) ≤
          latestCumulativeCost m entityId then
        (true, some "paused_budget")
      else if 2 ≤ m.anomalies.countP
          (fun a => a.entity_id = entityId && decide (now - a.timestamp < 300)) then
        (true, some "paused_anomaly")
      else (false, none) := by
  unfold shouldPauseEntity
  cases ap with
  | false => simp
  | true =>
    by_cases hmem : entityId ∈ m.pausedEntities
    · simp [hmem]
    · cases hsnap : entitySnapshots m entityId with
      | nil => simp [hmem, hsnap]
      | cons s rest =>
        simp only [hmem, hsnap, Bool.not_true, Bool.false_eq_true, if_false,
          List.cons_ne_nil, if_neg]
        rw [List.countP_eq_length_filter]
        by_cases hbudget : bl.getD ((alget m.budgetLimits entityId).getD defaultProjectLimitUsd) ≤
            latestCumulativeCost m entityId
        · simp [hbudget]
        · by_cases hanom : 2 ≤ (m.anomalies.filter
              (fun a => a.entity_id = entityId && decide (now - a.timestamp < 300))).length
          · simp [hbudget, hanom]
          · simp [hbudget, hanom]

/-! ### Claim C7 -/

/-- Claim C7: for a paused project with a saved `pre_pause_state`, the
resume endpoint restores `state` to exactly that saved value, clears
`pause_reason` and `paused_at` (and the saved state itself), and changes
nothing else — in particular it re-runs no stage: every content field
(`summary`, `script`, `storyboard`, `shots`, `cost_usd`, …) is untouched. -/
theorem C7_resume_restores_state (p : CreativeProject) (st : CreativeProjectState)
    (h1 : p.state = .PAUSED) (h2 : p.pre_pause_state = some st) :
    resumeProject p = .ok { p with state := st, pre_pause_state := none,
                                   pause_reason := none, paused_at := none } := by
  unfold resumeProject
  simp [h1, h2, CreativeProject.mark_state]

/-- Witness for C7 at a concrete paused project. -/
theorem C7_resume_restores_state_witness :
    exPausedProject.state = .PAUSED ∧
    exPausedProject.pre_pause_state = some .SCRIPT_REVIEW ∧
    resumeProject exPausedProject =
      .ok { exPausedProject with state := .SCRIPT_REVIEW, pre_pause_state := none,
                                 pause_reason := none, paused_at := none } :=
  ⟨rfl, rfl, C7_resume_restores_state exPausedProject .SCRIPT_REVIEW rfl rfl⟩

/-! ### Guardrail characterization lemmas -/

theorem recordCostGuardrail_not_paused_project (c : CreativeCtx) (a : ℚ)
    (ph : String) (now : ℚ)
    (h : (recordCostGuardrail c a ph now).2 = false) :
    (recordCostGuardrail c a ph now).1.project =
      { c.project with cost_usd := c.project.cost_usd + a } := by
  unfold recordCostGuardrail at h ⊢
  simp only at h ⊢
  rw [h] at *
  simp [h]

theorem recordCostGuardrail_paused_project (c : CreativeCtx) (a : ℚ)
    (ph : String) (now : ℚ)
    (h : (recordCostGuardrail c a ph now).2 = true) :
    ∃ reason, (recordCostGuardrail c a ph now).1.project =
      { c.project with
          cost_usd := c.project.cost_usd + a,
          pre_pause_state := some c.project.state,
          pause_reason := some reason,
          paused_at := some now,
          state := .PAUSED } := by
  unfold recordCostGuardrail at h ⊢
  simp only at h ⊢
  rw [h]
  simp [h]

theorem recordCostGuardrail_cost_usd (c : CreativeCtx) (a : ℚ) (ph : String) (now : ℚ) :
    (recordCostGuardrail c a ph now).1.project.cost_usd = c.project.cost_usd + a := by
  cases h : (recordCostGuardrail c a ph now).2 with
  | false => rw [recordCostGuardrail_not_paused_project c a ph now h]
  | true =>
    obtain ⟨r, hr⟩ := recordCostGuardrail_paused_project c a ph now h
    rw [hr]

/-! ### Claim C8 -/

theorem guardrailRun_cost (calls : List (ℚ × String × ℚ)) :
    ∀ c : CreativeCtx, (guardrailRun c calls).1.project.cost_usd =
      c.project.cost_usd + (calls.map (fun x => x.1)).sum := by
  induction calls with
  | nil => intro c; simp [guardrailRun]
  | cons x rest ih =>
    intro c
    simp only [guardrailRun, List.map_cons, List.sum_cons]
    rw [ih, recordCostGuardrail_cost_usd]
    ring

theorem guardrailCosts_chain (calls : List (ℚ × String × ℚ)) :
    ∀ c : CreativeCtx, (∀ x ∈ calls, 0 ≤ x.1) →
      List.Chain' (· ≤ ·) (c.project.cost_usd :: guardrailCosts c calls) := by
  induction calls with
  | nil => intro c _; simp [guardrailCosts]
  | cons x rest ih =>
    intro c hnn
    simp only [guardrailCosts]
    have hx : 0 ≤ x.1 := hnn x (List.mem_cons_self x rest)
    have hstep : c.project.cost_usd ≤
        ((recordCostGuardrail c x.1 x.2.1 x.2.2).1).project.cost_usd := by
      rw [recordCostGuardrail_cost_usd]
      linarith
    have htail := ih ((recordCostGuardrail c x.1 x.2.1 x.2.2).1)
      (fun y hy => hnn y (List.mem_cons_of_mem x hy))
    rw [List.chain'_cons]
    exact ⟨hstep, htail⟩

/-- Claim C8: over any sequence of `_record_cost_guardrail` calls starting
from `cost_usd = 0` with the (nonnegative) per-stage amounts, `cost_usd`
never decreases between consecutive calls and ends equal to the sum of all
amounts passed.  (Every call site in the workflow passes a positive
constant amount: 0.02, 0.05, 0.08, 2.5, 0.5, 0.1, 0.05, 0.05.) -/
theorem C8_cost_monotone_sum (c : CreativeCtx) (calls : List (ℚ × String × ℚ))
    (h0 : c.project.cost_usd = 0)
    (hnn : ∀ x ∈ calls, 0 ≤ x.1) :
    List.Chain' (· ≤ ·) (c.project.cost_usd :: guardrailCosts c calls) ∧
    (guardrailRun c calls).1.project.cost_usd = (calls.map (fun x => x.1)).sum := by
  constructor
  · exact guardrailCosts_chain calls c hnn
  · rw [guardrailRun_cost, h0, zero_add]

/-- Witness for C8: two concrete guardrail calls (brief then script). -/
theorem C8_cost_monotone_sum_witness :
    (∀ x ∈ [((2 : ℚ) / 100, "brief", (0 : ℚ)), ((5 : ℚ) / 100, "script", (1 : ℚ))], 0 ≤ x.1) ∧
    List.Chain' (· ≤ ·) ((exProject 50).cost_usd ::
      guardrailCosts { project := exProject 50 }
        [((2 : ℚ) / 100, "brief", (0 : ℚ)), ((5 : ℚ) / 100, "script", (1 : ℚ))]) ∧
    (guardrailRun { project := exProject 50 }
        [((2 : ℚ) / 100, "brief", (0 : ℚ)), ((5 : ℚ) / 100, "script", (1 : ℚ))]).1.project.cost_usd =
      ([((2 : ℚ) / 100, "brief", (0 : ℚ)), ((5 : ℚ) / 100, "script", (1 : ℚ))].map (fun x => x.1)).sum := by
  have hnn : ∀ x ∈ [((2 : ℚ) / 100, "brief", (0 : ℚ)), ((5 : ℚ) / 100, "script", (1 : ℚ))], 0 ≤ x.1 := by
    decide
  have h := C8_cost_monotone_sum { project := exProject 50 }
    [((2 : ℚ) / 100, "brief", (0 : ℚ)), ((5 : ℚ) / 100, "script", (1 : ℚ))] rfl hnn
  exact ⟨hnn, h.1, h.2⟩

/-! ### Claim C6 -/

/-- Claim C6, counterexample: the brief stage on a project whose budget the
stage cost exceeds.  The project is in `BRIEF_PENDING` immediately before
the stage runs, yet after the pause `pre_pause_state` is `SCRIPT_PENDING`
(the state written by the stage *before* the guardrail check), not
`BRIEF_PENDING` as the claim states. -/
theorem C6_pre_pause_counterexample :
    (exProject (1 / 100)).state = .BRIEF_PENDING ∧
    (expandBrief "enriched" { project := exProject (1 / 100) } 0).2 = true ∧
    (expandBrief "enriched" { project := exProject (1 / 100) } 0).1.project.pre_pause_state =
      some .SCRIPT_PENDING ∧
    (expandBrief "enriched" { project := exProject (1 / 100) } 0).1.project.pre_pause_state ≠
      some .BRIEF_PENDING := by
  refine ⟨rfl, ?_, ?_, ?_⟩ <;> decide

/-- Claim C6 (amended): when the brief stage's guardrail call pauses the
project, `pre_pause_state` equals the state the project held at the moment
the guardrail check ran — for `_expand_brief`, the stage's successor state
`SCRIPT_PENDING`, written before the check — and every field the stage
wrote is still present on the paused project: the new `summary` is kept,
`script`, `storyboard` and `shots` are untouched, and the stage's cost is
retained.  No rollback occurs. -/
theorem C6_pause_preserves_stage_output (summaryText : String) (c : CreativeCtx)
    (now : ℚ) (hpause : (expandBrief summaryText c now).2 = true) :
    (expandBrief summaryText c now).1.project.pre_pause_state = some .SCRIPT_PENDING ∧
    (expandBrief summaryText c now).1.project.state = .PAUSED ∧
    (expandBrief summaryText c now).1.project.summary = some summaryText ∧
    (expandBrief summaryText c now).1.project.script = c.project.script ∧
    (expandBrief summaryText c now).1.project.storyboard = c.project.storyboard ∧
    (expandBrief summaryText c now).1.project.shots = c.project.shots ∧
    (expandBrief summaryText c now).1.project.cost_usd = c.project.cost_usd + 2 / 100 := by
  unfold expandBrief at hpause ⊢
  obtain ⟨r, hr⟩ := recordCostGuardrail_paused_project _ _ _ _ hpause
  rw [hr]
  simp [CreativeProject.mark_state]

/-- Witness for C6 (amended) at a concrete paused brief stage. -/
theorem C6_pause_preserves_stage_output_witness :
    (expandBrief "enriched" { project := exProject (1 / 100) } 0).2 = true ∧
    ((expandBrief "enriched" { project := exProject (1 / 100) } 0).1.project.pre_pause_state =
        some .SCRIPT_PENDING ∧
      (expandBrief "enriched" { project := exProject (1 / 100) } 0).1.project.state = .PAUSED ∧
      (expandBrief "enriched" { project := exProject (1 / 100) } 0).1.project.summary =
        some "enriched" ∧
      (expandBrief "enriched" { project := exProject (1 / 100) } 0).1.project.script =
        (exProject (1 / 100)).script ∧
      (expandBrief "enriched" { project := exProject (1 / 100) } 0).1.project.storyboard =
        (exProject (1 / 100)).storyboard ∧
      (expandBrief "enriched" { project := exProject (1 / 100) } 0).1.project.shots =
        (exProject (1 / 100)).shots ∧
      (expandBrief "enriched" { project := exProject (1 / 100) } 0).1.project.cost_usd =
        (exProject (1 / 100)).cost_usd + 2 / 100) :=
  ⟨by decide,
   C6_pause_preserves_stage_output "enriched" { project := exProject (1 / 100) } 0 (by decide)⟩

/-! ### Claim C4 -/

/-- Claim C4, counterexample: a session in `ACTIVE` with
`iteration = max_iterations` but `auto_pause_enabled = False`.
`_can_continue` skips the guardrail entirely, the loop runs (one LLM
completion is made) and the session completes — it is never paused, and a
capability call *is* made, contradicting the claim as stated for every
`GeneralSession`. -/
theorem C4_auto_pause_disabled_counterexample :
    (exSessionNoAuto.state = .ACTIVE ∧
     exSessionNoAuto.max_iterations ≤ exSessionNoAuto.iteration) ∧
    (runIteration (exRuntime (.error (.other "boom"))) exFinalOracle (fun t => t)
        { session := exSessionNoAuto } none).toOption.map
      (fun c => (c.session.state, c.llmCalls)) =
      some (.COMPLETED, 1) := by
  refine ⟨⟨rfl, ?_⟩, ?_⟩ <;> decide

/-- Claim C4 (amended): for every `GeneralSession` in state `ACTIVE` with
`auto_pause_enabled = True` and `iteration ≥ max_iterations` or
`spent_usd ≥ budget_limit_usd`, `run_iteration` transitions the session to
`PAUSED` with a `pause_reason` set and returns immediately: no capability
call (no LLM completion and no tool execution) is made. -/
theorem C4_guardrail_precheck_pauses (rt : ToolRuntimeModel)
    (oracle : Nat → LLMResponse) (summarizer : String → String) (ctx : GenCtx)
    (promptText : Option String)
    (hactive : ctx.session.state = .ACTIVE)
    (hauto : ctx.session.auto_pause_enabled = true)
    (hlimit : ctx.session.max_iterations ≤ ctx.session.iteration ∨
              ctx.session.budget_limit_usd ≤ ctx.session.spent_usd) :
    ∃ ctx', runIteration rt oracle summarizer ctx promptText = .ok ctx' ∧
      ctx'.session.state = .PAUSED ∧ ctx'.session.pause_reason.isSome = true ∧
      ctx'.llmCalls = ctx.llmCalls ∧ ctx'.toolExecs = ctx.toolExecs := by
  have hcc : (canContinue ctx.session).1 = false ∧
      (canContinue ctx.session).2.state = .PAUSED ∧
      (canContinue ctx.session).2.pause_reason.isSome = true := by
    unfold canContinue
    rw [hauto]
    rcases hlimit with h | h
    · simp [h]
    · by_cases h2 : ctx.session.max_iterations ≤ ctx.session.iteration
      · simp [h2]
      · simp [h2, h]
  refine ⟨{ ctx with session := (canContinue ctx.session).2 }, ?_, hcc.2.1, hcc.2.2, rfl, rfl⟩
  unfold runIteration
  simp [hactive, hcc.1]

/-- Witness for C4 (amended) at a session whose iteration limit is
reached. -/
theorem C4_guardrail_precheck_pauses_witness :
    (exSessionAtLimit.state = .ACTIVE ∧ exSessionAtLimit.auto_pause_enabled = true ∧
      exSessionAtLimit.max_iterations ≤ exSessionAtLimit.iteration) ∧
    (∃ ctx', runIteration (exRuntime (.error (.other "boom"))) exFinalOracle (fun t => t)
        { session := exSessionAtLimit } none = .ok ctx' ∧
      ctx'.session.state = .PAUSED ∧ ctx'.session.pause_reason.isSome = true ∧
      ctx'.llmCalls = ({ session := exSessionAtLimit } : GenCtx).llmCalls ∧
      ctx'.toolExecs = ({ session := exSessionAtLimit } : GenCtx).toolExecs) :=
  ⟨⟨rfl, rfl, by decide⟩,
   C4_guardrail_precheck_pauses (exRuntime (.error (.other "boom"))) exFinalOracle
     (fun t => t) { session := exSessionAtLimit } none rfl rfl (Or.inl (by decide))⟩

/-! ### Claim C5 -/

/-- Claim C5, violated by the code (the spec states the recovery policy,
`SessionRecordingToolRuntime` exists precisely to record tool calls on the
session, and the test suite asserts `session.tool_calls` is populated —
the intent is clear and the call-site method name is the slip): here the
registered tool's capability is set to raise an ordinary
`RuntimeError("boom")`, yet the session transcript records nothing at
all.  `react_loop` looks up the nonexistent `execute_async` on the
wrapper, so every tool invocation — failing or not — becomes an
`AttributeError` observation local to the loop, the wrapper's
error-conversion and recording code never runs, and the session ends
`COMPLETED` with `tool_calls = []`, no observation line in `messages`,
and `iteration = 0`.  The claim's "converted into an error-observation
entry in the session transcript" never happens (the not-FAILED and
loop-continues parts do hold: the loop reached the final answer). -/
theorem C5_tool_failure_not_in_transcript :
    (exRuntime (.error (.other "boom"))).run "t" "arg" = .error (.other "boom") ∧
    (runIteration (exRuntime (.error (.other "boom"))) exOracle (fun t => t)
        { session := exSessionFive } none).toOption.map
      (fun c => (c.session.state, c.session.tool_calls, c.session.messages,
                 c.session.iteration, c.session.spent_usd)) =
      some (.COMPLETED, [], ["Final Answer: done"], 0, 0) :=
  ⟨rfl, by decide⟩

/-! ### Claim C1 -/

/-- Claim C1, violated by the code (the spec states the propagation
policy, `run_iteration` has a dedicated `except GuardrailTriggered` catch
site, and the loop's own `except GuardrailTriggered: raise` shows the
interrupt is meant to reach it — the intent is clear and the code the
slip): here a tool call would make `spent_usd = 1.5` cross the one-dollar
budget and the wrapper's post-check would raise
`GuardrailTriggered("budget_exceeded")` — but `react_loop` looks up the
nonexistent `execute_async` attribute on the wrapper, so the tool
invocation raises `AttributeError` instead, the inner generic handler
turns it into an observation, and the wrapper (with its guardrail checks
and recording) is unreachable from the loop.  No `GuardrailTriggered` is
ever raised, nothing is spent or recorded, `run_iteration`'s catch site
never fires, and the session ends `COMPLETED` with `pause_reason = None`,
`spent_usd = 0`, `iteration = 0` and an empty tool-call log — never the
`PAUSED`-with-reason outcome the claim requires.  (Even if the wrapper
were reachable and did raise, the re-raise at `general.py:130` would land
in the same loop body's outer `except Exception` at line 134, since
`GuardrailTriggered` derives from `RuntimeError`.) -/
theorem C1_guardrail_unreachable_from_loop :
    (runIteration (exRuntime (.ok ("out", 3 / 2))) exOracle (fun t => t)
        { session := exSession } none).toOption.map
      (fun c => (c.session.state, c.session.pause_reason, c.session.spent_usd,
                 c.session.iteration)) =
      some (.COMPLETED, none, 0, 0) ∧
    (runIteration (exRuntime (.ok ("out", 3 / 2))) exOracle (fun t => t)
        { session := exSession } none).toOption.map
      (fun c => (c.session.tool_calls, c.session.messages)) =
      some ([], ["Final Answer: done"]) :=
  ⟨by decide, by decide⟩

/-! ### Claim C9 -/

theorem filterMap_all_some {α β : Type} (f : α → Option β) (g : α → β) :
    ∀ l : List α, (∀ a ∈ l, f a = some (g a)) → l.filterMap f = l.map g := by
  intro l
  induction l with
  | nil => intro _; rfl
  | cons a t ih =>
    intro h
    rw [List.filterMap_cons, h a (List.mem_cons_self a t), List.map_cons,
      ih (fun b hb => h b (List.mem_cons_of_mem a hb))]

theorem map_getD_range {α : Type} (l : List α) (d : α) :
    (List.range l.length).map (fun i => l.getD i d) = l := by
  apply List.ext_getElem
  · simp
  · intro i h1 h2
    simp only [List.getElem_map, List.getElem_range]
    rw [List.getD_eq_getElem l d h2]

theorem foldl_set_getElem? {α : Type} (tasks : List α) :
    ∀ (order : List Nat) (acc : List (Option α)), acc.length = tasks.length →
      ∀ j, (order.foldl (fun acc i => acc.set i tasks[i]?) acc)[j]? =
        if j ∈ order then
          (if j < tasks.length then some tasks[j]? else none)
        else acc[j]? := by
  intro order
  induction order with
  | nil => intro acc hl j; simp
  | cons i rest ih =>
    intro acc hl j
    rw [List.foldl_cons]
    have hlen : (acc.set i tasks[i]?).length = tasks.length := by
      rw [List.length_set, hl]
    rw [ih (acc.set i tasks[i]?) hlen j]
    by_cases hjr : j ∈ rest
    · simp [hjr]
    · simp only [hjr, if_false]
      by_cases hji : j = i
      · subst hji
        simp only [List.mem_cons, true_or, if_true]
        by_cases hj : j < tasks.length
        · rw [List.getElem?_set_eq_of_lt]
          · simp [hj]
          · rw [hl]; exact hj
        · rw [if_neg hj]
          rw [List.getElem?_set_self']
          have hcc : acc[j]? = none :=
            List.getElem?_eq_none (by rw [hl]; exact Nat.le_of_not_lt hj)
          rw [hcc]
          rfl
      · simp only [List.mem_cons, hji, hjr, or_self, if_false]
        rw [List.getElem?_set_ne]
        exact fun h => hji h.symm

theorem asyncGather_perm {α : Type} [Inhabited α] (tasks : List α) (order : List Nat)
    (h : ∀ j, j < tasks.length → j ∈ order) :
    asyncGather tasks order = tasks := by
  unfold asyncGather
  have hrepl : (List.replicate tasks.length (none : Option α)).length = tasks.length := by
    simp
  have hstep : ∀ i ∈ List.range tasks.length,
      ((order.foldl (fun acc i => acc.set i tasks[i]?)
        (List.replicate tasks.length none))[i]?).getD none =
      some (tasks.getD i default) := by
    intro i hi
    have hilt : i < tasks.length := List.mem_range.mp hi
    rw [foldl_set_getElem? tasks order _ hrepl i]
    simp only [h i hilt, if_true, hilt]
    rw [Option.getD_some, List.getElem?_eq_getElem hilt,
      List.getD_eq_getElem?_getD, List.getElem?_eq_getElem hilt, Option.getD_some]
  rw [filterMap_all_some _ (fun i => tasks.getD i default) _ hstep]
  exact map_getD_range tasks default

theorem recordCostGuardrail_storyboard (c : CreativeCtx) (a : ℚ) (ph : String)
    (now : ℚ) :
    (recordCostGuardrail c a ph now).1.project.storyboard = c.project.storyboard := by
  cases h : (recordCostGuardrail c a ph now).2 with
  | false => rw [recordCostGuardrail_not_paused_project c a ph now h]
  | true =>
    obtain ⟨r, hr⟩ := recordCostGuardrail_paused_project c a ph now h
    rw [hr]

/-- Claim C9: for a script split into `N` scenes, the storyboard persisted
by `_generate_storyboard` has exactly `N` panels whose `scene_number`
values are `1..N` in ascending list position, for **every** completion
order of the concurrently generated panel tasks (any permutation of the
task indices): `asyncio.gather` joins results in submission order. -/
theorem C9_storyboard_ordering (scenes : List SceneInfo) (evalScores : Nat → ℚ)
    (visualUrls : Nat → String) (completionOrder : List Nat) (c : CreativeCtx)
    (now : ℚ) (hperm : completionOrder.Perm (List.range scenes.length)) :
    (generateStoryboard scenes evalScores visualUrls completionOrder c now).1.project.storyboard.length
      = scenes.length ∧
    (generateStoryboard scenes evalScores visualUrls completionOrder c now).1.project.storyboard.map
        (fun panel => panel.scene_number)
      = (List.range scenes.length).map (fun i => i + 1) := by
  have hcover : ∀ j, j < (((List.range scenes.length).map (fun i =>
      generateSinglePanel (i + 1) (scenes.getD i default) (evalScores i)
        (visualUrls i))).length) → j ∈ completionOrder := by
    intro j hj
    rw [List.length_map, List.length_range] at hj
    exact (hperm.mem_iff).mpr (List.mem_range.mpr hj)
  have hgather := asyncGather_perm ((List.range scenes.length).map (fun i =>
    generateSinglePanel (i + 1) (scenes.getD i default) (evalScores i)
      (visualUrls i))) completionOrder hcover
  have hboard : (generateStoryboard scenes evalScores visualUrls completionOrder c now).1.project.storyboard
      = (List.range scenes.length).map (fun i =>
          generateSinglePanel (i + 1) (scenes.getD i default) (evalScores i)
            (visualUrls i)) := by
    unfold generateStoryboard generateStoryboardPanels
    rw [recordCostGuardrail_storyboard]
    exact hgather
  rw [hboard]
  constructor
  · simp
  · rw [List.map_map]
    rfl

/-- Witness for C9: two scenes joined in reversed completion order. -/
theorem C9_storyboard_ordering_witness :
    ([1, 0] : List Nat).Perm (List.range exScenes.length) ∧
    ((generateStoryboard exScenes (fun _ => 9 / 10) (fun i => toString i) [1, 0]
        { project := exProject 50 } 0).1.project.storyboard.length = exScenes.length ∧
      (generateStoryboard exScenes (fun _ => 9 / 10) (fun i => toString i) [1, 0]
          { project := exProject 50 } 0).1.project.storyboard.map
        (fun panel => panel.scene_number) =
        (List.range exScenes.length).map (fun i => i + 1)) :=
  ⟨by decide,
   C9_storyboard_ordering exScenes (fun _ => 9 / 10) (fun i => toString i) [1, 0]
     { project := exProject 50 } 0 (by decide)⟩

/-! ### Claim C10 -/

theorem recordCostGuardrail_already_paused (c : CreativeCtx) (a : ℚ) (ph : String)
    (now : ℚ) (h : c.project.id ∈ c.monitor.pausedEntities) :
    (recordCostGuardrail c a ph now).2 = false ∧
    (recordCostGuardrail c a ph now).1.project =
      { c.project with cost_usd := c.project.cost_usd + a } ∧
    c.project.id ∈ (recordCostGuardrail c a ph now).1.monitor.pausedEntities := by
  have hmem2 : c.project.id ∈
      ((checkForAnomalies
        (recordSnapshot c.monitor c.project.id .project
          (c.project.cost_usd + a) (some ph) (some c.project.budget_limit_usd) now)
        c.project.id .project (some c.project.budget_limit_usd)
        (estimateCompletion { c.project with cost_usd := c.project.cost_usd + a }) 2 now).1).pausedEntities := by
    rw [checkForAnomalies_pausedEntities, recordSnapshot_pausedEntities]
    exact h
  unfold recordCostGuardrail
  dsimp only
  rw [shouldPauseEntity_already_paused _ _ _ _ _ _ hmem2]
  exact ⟨rfl, rfl, hmem2⟩

theorem guardrailRun_already_paused (calls : List (ℚ × String × ℚ)) :
    ∀ c : CreativeCtx, c.project.id ∈ c.monitor.pausedEntities →
      (∀ b ∈ (guardrailRun c calls).2, b = false) ∧
      (guardrailRun c calls).1.project.state = c.project.state ∧
      c.project.id ∈ (guardrailRun c calls).1.monitor.pausedEntities := by
  induction calls with
  | nil => intro c h; exact ⟨by simp [guardrailRun], rfl, h⟩
  | cons x rest ih =>
    intro c h
    obtain ⟨hflag, hproj, hmem⟩ := recordCostGuardrail_already_paused c x.1 x.2.1 x.2.2 h
    have hid : (recordCostGuardrail c x.1 x.2.1 x.2.2).1.project.id = c.project.id := by
      rw [hproj]
    have hstate : (recordCostGuardrail c x.1 x.2.1 x.2.2).1.project.state = c.project.state := by
      rw [hproj]
    have hmem' : (recordCostGuardrail c x.1 x.2.1 x.2.2).1.project.id ∈
        (recordCostGuardrail c x.1 x.2.1 x.2.2).1.monitor.pausedEntities := by
      rw [hid]; exact hmem
    obtain ⟨ihflag, ihstate, ihmem⟩ := ih _ hmem'
    refine ⟨?_, ?_, ?_⟩
    · intro b hb
      simp only [guardrailRun, List.mem_cons] at hb
      rcases hb with hb | hb
      · rw [hb]; exact hflag
      · exact ihflag b hb
    · show (guardrailRun (recordCostGuardrail c x.1 x.2.1 x.2.2).1 rest).1.project.state
        = c.project.state
      rw [ihstate, hstate]
    · show c.project.id ∈
        (guardrailRun (recordCostGuardrail c x.1 x.2.1 x.2.2).1 rest).1.monitor.pausedEntities
      rw [← hid]
      exact ihmem

/-- Claim C10: once `should_pause_entity` has returned `True` for an entity
(adding it to `paused_entities`), every later `should_pause_entity` call
for that id returns `(False, None)`; and because the project resume
endpoint never calls `CostMonitor.resume_entity` (it does not touch the
monitor at all), a project that was auto-paused and then resumed is never
auto-paused by the cost monitor again — over any further sequence of
`_record_cost_guardrail` calls (any amounts, however large) every pause
flag is `False`, the project stays in its resumed state, and the entity
remains in the monitor's paused set. -/
theorem C10_pause_sticky_resume_flow (p : CreativeProject)
    (st : CreativeProjectState) (tr : CostTracker) (m : CostMonitor)
    (calls : List (ℚ × String × ℚ))
    (h1 : p.state = .PAUSED) (h2 : p.pre_pause_state = some st)
    (h3 : p.id ∈ m.pausedEntities) :
    (∀ (m2 : CostMonitor) (et : EntityType) (bl : Option ℚ) (ap : Bool) (now : ℚ)
        (out : (Bool × Option String) × CostMonitor),
        shouldPauseEntity m2 p.id et bl ap now = out → out.1.1 = true →
        p.id ∈ out.2.pausedEntities) ∧
    (∀ (et : EntityType) (bl : Option ℚ) (ap : Bool) (now : ℚ),
        (shouldPauseEntity m p.id et bl ap now).1 = (false, none)) ∧
    ∃ p', resumeProject p = .ok p' ∧ p'.state = st ∧
      (∀ b ∈ (guardrailRun { project := p', tracker := tr, monitor := m } calls).2,
        b = false) ∧
      (guardrailRun { project := p', tracker := tr, monitor := m } calls).1.project.state = st ∧
      p.id ∈ (guardrailRun { project := p', tracker := tr, monitor := m } calls).1.monitor.pausedEntities := by
  have hres := guardrailRun_already_paused calls
    ⟨{ p with state := st, pre_pause_state := none, pause_reason := none, paused_at := none }, tr, m⟩
    h3
  refine ⟨fun m2 et bl ap now out hout htrue =>
      shouldPauseEntity_true_mem m2 p.id et bl ap now out hout htrue,
    fun et bl ap now => by rw [shouldPauseEntity_already_paused m p.id et bl ap now h3],
    { p with state := st, pre_pause_state := none, pause_reason := none, paused_at := none },
    ?_, rfl, hres.1, hres.2.1, hres.2.2⟩
  unfold resumeProject
  simp [h1, h2, CreativeProject.mark_state]

/-- Witness for C10: a resumed project whose id the monitor still holds,
followed by one large over-budget guardrail call. -/
theorem C10_pause_sticky_resume_flow_witness :
    (exPausedProject.state = .PAUSED ∧
     exPausedProject.pre_pause_state = some .SCRIPT_REVIEW ∧
     exPausedProject.id ∈ exPausedMonitor.pausedEntities) ∧
    ((∀ (m2 : CostMonitor) (et : EntityType) (bl : Option ℚ) (ap : Bool) (now : ℚ)
        (out : (Bool × Option String) × CostMonitor),
        shouldPauseEntity m2 exPausedProject.id et bl ap now = out → out.1.1 = true →
        exPausedProject.id ∈ out.2.pausedEntities) ∧
    (∀ (et : EntityType) (bl : Option ℚ) (ap : Bool) (now : ℚ),
        (shouldPauseEntity exPausedMonitor exPausedProject.id et bl ap now).1 = (false, none)) ∧
    ∃ p', resumeProject exPausedProject = .ok p' ∧ p'.state = .SCRIPT_REVIEW ∧
      (∀ b ∈ (guardrailRun { project := p', tracker := {}, monitor := exPausedMonitor }
          [((100 : ℚ), "script", (0 : ℚ))]).2, b = false) ∧
      (guardrailRun { project := p', tracker := {}, monitor := exPausedMonitor }
          [((100 : ℚ), "script", (0 : ℚ))]).1.project.state = .SCRIPT_REVIEW ∧
      exPausedProject.id ∈ (guardrailRun { project := p', tracker := {}, monitor := exPausedMonitor }
          [((100 : ℚ), "script", (0 : ℚ))]).1.monitor.pausedEntities) :=
  ⟨⟨rfl, rfl, by decide⟩,
   C10_pause_sticky_resume_flow exPausedProject .SCRIPT_REVIEW {} exPausedMonitor
     [((100 : ℚ), "script", (0 : ℚ))] rfl rfl (by decide)⟩

/-! ### Claim C2 -/

/-- Claim C2, counterexample: with the default 50-dollar envelope, two
`record("p", 50)` calls have spend percentages 100 and 200.  The claim
says the `cost_threshold` event for `("p", 95)` fires exactly once, on the
first crossing, and is not re-emitted while spend stays above; but the
second call emits it again (and the 100% crossing on the first call was
reported as threshold 95, since the loop breaks at the first — lowest —
reached percentage). -/
theorem C2_record_reemits_counterexample :
    (CostTracker.record {} "p" 50).2.2 =
      [{ entity_id := "p", threshold := 95, spent := 50 }] ∧
    ((CostTracker.record {} "p" 50).2.1.record "p" 50).2.2 =
      [{ entity_id := "p", threshold := 95, spent := 100 }] := by
  refine ⟨?_, ?_⟩ <;> decide

theorem getLastD_append_singleton {α : Type} (l : List α) (a d : α) :
    (l ++ [a]).getLastD d = a := by
  induction l generalizing d with
  | nil => rfl
  | cons x t ih => rw [List.cons_append, List.getLastD_cons]; exact ih x

theorem thresholdLoop_spec (pct : ℚ) :
    ∀ (ths triggered : List Nat), ths.Nodup →
      (thresholdLoop pct triggered ths).2 =
        ths.filter (fun th => decide (th ∉ triggered) && decide ((th : ℚ) ≤ pct)) ∧
      (thresholdLoop pct triggered ths).1 =
        triggered ++ ths.filter (fun th => decide (th ∉ triggered) && decide ((th : ℚ) ≤ pct)) := by
  intro ths
  induction ths with
  | nil => intro trig _; simp [thresholdLoop]
  | cons th rest ih =>
    intro trig hnd
    have hndr : rest.Nodup := hnd.of_cons
    have hthr : th ∉ rest := (List.nodup_cons.mp hnd).1
    by_cases hmem : th ∈ trig
    · obtain ⟨h1, h2⟩ := ih trig hndr
      have hfe : (th :: rest).filter
          (fun x => decide (x ∉ trig) && decide ((x : ℚ) ≤ pct)) =
          rest.filter (fun x => decide (x ∉ trig) && decide ((x : ℚ) ≤ pct)) := by
        simp [List.filter_cons, hmem]
      rw [hfe]
      simp only [thresholdLoop, if_pos hmem]
      exact ⟨h1, h2⟩
    · by_cases hle : (th : ℚ) ≤ pct
      · obtain ⟨h1, h2⟩ := ih (trig ++ [th]) hndr
        have hfeq : rest.filter
            (fun x => decide (x ∉ trig ++ [th]) && decide ((x : ℚ) ≤ pct)) =
            rest.filter (fun x => decide (x ∉ trig) && decide ((x : ℚ) ≤ pct)) := by
          apply List.filter_congr
          intro x hx
          have hxth : x ≠ th := fun he => hthr (he ▸ hx)
          simp [List.mem_append, hxth]
        have hfe : (th :: rest).filter
            (fun x => decide (x ∉ trig) && decide ((x : ℚ) ≤ pct)) =
            th :: rest.filter (fun x => decide (x ∉ trig) && decide ((x : ℚ) ≤ pct)) := by
          simp [List.filter_cons, hmem, hle]
        rw [hfe]
        simp only [thresholdLoop, if_neg hmem, if_pos hle]
        constructor
        · rw [h1, hfeq]
        · rw [h2, hfeq]
          rw [List.append_assoc]
          rfl
      · obtain ⟨h1, h2⟩ := ih trig hndr
        have hfe : (th :: rest).filter
            (fun x => decide (x ∉ trig) && decide ((x : ℚ) ≤ pct)) =
            rest.filter (fun x => decide (x ∉ trig) && decide ((x : ℚ) ≤ pct)) := by
          simp [List.filter_cons, hmem, hle]
        rw [hfe]
        simp only [thresholdLoop, if_neg hmem, if_neg hle]
        exact ⟨h1, h2⟩

theorem entitySnapshots_recordSnapshot (m : CostMonitor) (id : String)
    (et : EntityType) (cost : ℚ) (ph : Option String) (bl : Option ℚ) (now : ℚ) :
    entitySnapshots (recordSnapshot m id et cost ph bl now) id =
      ((entitySnapshots m id) ++
        [({ timestamp := now, entity_id := id, entity_type := et,
            cumulative_cost := cost, phase := ph } : CostSnapshot)]).filter
        (fun s => decide (now - 24 * 3600 < s.timestamp)) := by
  unfold recordSnapshot entitySnapshots
  cases bl <;> simp [alget_alset_self]

theorem latestCumulativeCost_recordSnapshot (m : CostMonitor) (id : String)
    (et : EntityType) (cost : ℚ) (ph : Option String) (bl : Option ℚ) (now : ℚ) :
    latestCumulativeCost (recordSnapshot m id et cost ph bl now) id = cost ∧
    entitySnapshots (recordSnapshot m id et cost ph bl now) id ≠ [] := by
  have hkeep : decide (now - 24 * 3600 <
      ({ timestamp := now, entity_id := id, entity_type := et,
         cumulative_cost := cost, phase := ph } : CostSnapshot).timestamp) = true := by
    simp only [decide_eq_true_iff]
    show now - 24 * 3600 < now
    linarith
  have hsingle : List.filter (fun s => decide (now - 24 * 3600 < s.timestamp))
      [({ timestamp := now, entity_id := id, entity_type := et,
          cumulative_cost := cost, phase := ph } : CostSnapshot)] =
      [({ timestamp := now, entity_id := id, entity_type := et,
          cumulative_cost := cost, phase := ph } : CostSnapshot)] := by
    rw [List.filter_cons, hkeep]
    rfl
  constructor
  · unfold latestCumulativeCost
    rw [entitySnapshots_recordSnapshot, List.filter_append, hsingle,
      getLastD_append_singleton]
  · rw [entitySnapshots_recordSnapshot, List.filter_append, hsingle]
    simp

theorem checkForAnomalies_thresholds (m : CostMonitor) (id : String)
    (et : EntityType) (limit comp mult now : ℚ)
    (hne : entitySnapshots m id ≠ [])
    (hlim : limit ≠ 0) :
    (checkForAnomalies m id et (some limit) comp mult now).2.2 =
      costAlertPercentages.filter (fun th =>
        decide (th ∉ (alget m.thresholdAlerts id).getD []) &&
        decide ((th : ℚ) ≤ latestCumulativeCost m id / limit * 100)) ∧
    (alget ((checkForAnomalies m id et (some limit) comp mult now).1).thresholdAlerts id).getD []
      = (alget m.thresholdAlerts id).getD [] ++
        costAlertPercentages.filter (fun th =>
          decide (th ∉ (alget m.thresholdAlerts id).getD []) &&
          decide ((th : ℚ) ≤ latestCumulativeCost m id / limit * 100)) ∧
    (checkForAnomalies m id et (some limit) comp mult now).2.1.countP
        (isBudgetThresholdFor id)
      = ((checkForAnomalies m id et (some limit) comp mult now).2.2).length := by
  unfold checkForAnomalies
  cases hsnap : entitySnapshots m id with
  | nil => exact absurd hsnap hne
  | cons s rest =>
    dsimp only [Option.getD_some]
    have hbp : (if limit ≠ 0 then some (latestCumulativeCost m id / limit * 100)
        else none) = some (latestCumulativeCost m id / limit * 100) := by
      simp [hlim]
    rw [hbp]
    have hsort : sortListBy (fun a b => decide (a ≤ b)) costAlertPercentages
        = costAlertPercentages := by decide
    rw [hsort]
    have hnd : costAlertPercentages.Nodup := by decide
    obtain ⟨hem, htr⟩ := thresholdLoop_spec (latestCumulativeCost m id / limit * 100)
      costAlertPercentages ((alget m.thresholdAlerts id).getD []) hnd
    dsimp only
    rw [foldl_shouldEmitAlert_thresholdAlerts]
    refine ⟨hem, ?_, ?_⟩
    · rw [alget_alset_self, Option.getD_some, htr]
    · rw [List.countP_append, List.countP_append, List.countP_append]
      have hc1 : ((thresholdLoop (latestCumulativeCost m id / limit * 100)
          ((alget m.thresholdAlerts id).getD []) costAlertPercentages).2.map
            (fun th => mkBudgetThresholdAnomaly id et th
              (calculateCostRate m id 10 now)
              (calculateHistoricalRate m id (95 / 100))
              (latestCumulativeCost m id) limit
              (some (latestCumulativeCost m id / limit * 100)) now)).countP
          (isBudgetThresholdFor id) =
          (thresholdLoop (latestCumulativeCost m id / limit * 100)
            ((alget m.thresholdAlerts id).getD []) costAlertPercentages).2.length := by
        rw [List.countP_map]
        have : ∀ th : Nat, (isBudgetThresholdFor id ∘ fun th =>
            mkBudgetThresholdAnomaly id et th
              (calculateCostRate m id 10 now)
              (calculateHistoricalRate m id (95 / 100))
              (latestCumulativeCost m id) limit
              (some (latestCumulativeCost m id / limit * 100)) now) th = true := by
          intro th
          simp [isBudgetThresholdFor, mkBudgetThresholdAnomaly, Function.comp]
        rw [List.countP_eq_length.mpr (fun a _ => this a)]
      rw [hc1]
      have hc2 : ∀ l2 : List CostAnomaly,
          (∀ a ∈ l2, isBudgetThresholdFor id a = false) →
          l2.countP (isBudgetThresholdFor id) = 0 := by
        intro l2 hl2
        rw [List.countP_eq_zero.mpr]
        intro a ha
        rw [hl2 a ha]
        simp
      rw [hc2 _ ?hbe, hc2 _ ?hrs, hc2 _ ?hov]
      case hbe =>
        intro a ha
        split at ha
        · rw [List.mem_singleton] at ha
          rw [ha]
          simp [isBudgetThresholdFor]
        · exact absurd ha (List.not_mem_nil a)
      case hrs =>
        intro a ha
        split at ha
        · rw [List.mem_singleton] at ha
          rw [ha]
          simp [isBudgetThresholdFor]
        · exact absurd ha (List.not_mem_nil a)
      case hov =>
        intro a ha
        split at ha
        · split at ha
          · split at ha
            · rw [List.mem_singleton] at ha
              rw [ha]
              simp [isBudgetThresholdFor]
            · exact absurd ha (List.not_mem_nil a)
          · exact absurd ha (List.not_mem_nil a)
        · exact absurd ha (List.not_mem_nil a)
      omega

theorem monitorStep_thresholds (m : CostMonitor) (id : String) (limit : ℚ)
    (s : ℚ × ℚ) (hlim : limit ≠ 0) :
    (monitorStep id limit m s).2.2 =
      costAlertPercentages.filter (fun th =>
        decide (th ∉ (alget m.thresholdAlerts id).getD []) &&
        decide ((th : ℚ) ≤ s.1 / limit * 100)) ∧
    (alget ((monitorStep id limit m s).1).thresholdAlerts id).getD []
      = (alget m.thresholdAlerts id).getD [] ++
        costAlertPercentages.filter (fun th =>
          decide (th ∉ (alget m.thresholdAlerts id).getD []) &&
          decide ((th : ℚ) ≤ s.1 / limit * 100)) ∧
    (monitorStep id limit m s).2.1.countP (isBudgetThresholdFor id)
      = ((monitorStep id limit m s).2.2).length := by
  have h4 := latestCumulativeCost_recordSnapshot m id .project s.1 none (some limit) s.2
  have h5 := checkForAnomalies_thresholds
    (recordSnapshot m id .project s.1 none (some limit) s.2) id .project
    limit (1 / 2) 2 s.2 h4.2 hlim
  rw [recordSnapshot_thresholdAlerts, h4.1] at h5
  exact h5

theorem monitorSeq_triggered_persist (id : String) (limit : ℚ) (th : Nat)
    (hlim : limit ≠ 0) :
    ∀ (steps : List (ℚ × ℚ)) (m : CostMonitor),
      th ∈ (alget m.thresholdAlerts id).getD [] →
      th ∈ (alget ((monitorSeq id limit m steps).1).thresholdAlerts id).getD [] ∧
      ∀ i, th ∉ ((monitorSeq id limit m steps).2.getD i ([], [])).2 := by
  intro steps
  induction steps with
  | nil =>
    intro m h
    refine ⟨h, fun i => ?_⟩
    simp [monitorSeq]
  | cons s rest ih =>
    intro m h
    obtain ⟨hem, htr, _⟩ := monitorStep_thresholds m id limit s hlim
    have h' : th ∈ (alget ((monitorStep id limit m s).1).thresholdAlerts id).getD [] := by
      rw [htr]
      exact List.mem_append_left _ h
    have hnot0 : th ∉ (monitorStep id limit m s).2.2 := by
      rw [hem]
      intro hmem
      have hp := List.of_mem_filter hmem
      simp only [Bool.and_eq_true, decide_eq_true_iff] at hp
      exact hp.1 h
    obtain ⟨ihmem, ihnot⟩ := ih (monitorStep id limit m s).1 h'
    refine ⟨by simpa [monitorSeq] using ihmem, fun i => ?_⟩
    cases i with
    | zero => simpa [monitorSeq] using hnot0
    | succ k => simpa [monitorSeq] using ihnot k

theorem monitorSeq_count (id : String) (limit : ℚ) (hlim : limit ≠ 0) :
    ∀ (steps : List (ℚ × ℚ)) (m : CostMonitor) (i : Nat),
      ((monitorSeq id limit m steps).2.getD i ([], [])).1.countP (isBudgetThresholdFor id)
        = ((monitorSeq id limit m steps).2.getD i ([], [])).2.length := by
  intro steps
  induction steps with
  | nil => intro m i; simp [monitorSeq]
  | cons s rest ih =>
    intro m i
    cases i with
    | zero =>
      obtain ⟨_, _, hcount⟩ := monitorStep_thresholds m id limit s hlim
      simpa [monitorSeq] using hcount
    | succ k => simpa [monitorSeq] using ih (monitorStep id limit m s).1 k

theorem monitorSeq_first_crossing (id : String) (limit : ℚ) (th : Nat)
    (hth : th ∈ costAlertPercentages) (hlim : limit ≠ 0) :
    ∀ (steps : List (ℚ × ℚ)) (m : CostMonitor),
      th ∉ (alget m.thresholdAlerts id).getD [] →
      ∀ i, i < steps.length →
        (th ∈ ((monitorSeq id limit m steps).2.getD i ([], [])).2 ↔
          ((th : ℚ) ≤ (steps.getD i (0, 0)).1 / limit * 100 ∧
           ∀ j, j < i → (steps.getD j (0, 0)).1 / limit * 100 < (th : ℚ))) := by
  intro steps
  induction steps with
  | nil =>
    intro m h i hi
    exact absurd hi (Nat.not_lt_zero i)
  | cons s rest ih =>
    intro m h i hi
    obtain ⟨hem, htr, _⟩ := monitorStep_thresholds m id limit s hlim
    cases i with
    | zero =>
      simp only [monitorSeq, List.getD_cons_zero]
      rw [hem]
      constructor
      · intro hmem
        have hp := List.of_mem_filter hmem
        simp only [Bool.and_eq_true, decide_eq_true_iff] at hp
        exact ⟨hp.2, fun j hj => absurd hj (Nat.not_lt_zero j)⟩
      · rintro ⟨hle, _⟩
        exact List.mem_filter.mpr ⟨hth, by simp [h, hle]⟩
    | succ k =>
      have hk : k < rest.length := by simpa using hi
      by_cases hcross : (th : ℚ) ≤ s.1 / limit * 100
      · have hmem0 : th ∈ (monitorStep id limit m s).2.2 := by
          rw [hem]
          exact List.mem_filter.mpr ⟨hth, by simp [h, hcross]⟩
        have htrig : th ∈ (alget ((monitorStep id limit m s).1).thresholdAlerts id).getD [] := by
          rw [htr]
          refine List.mem_append_right _ ?_
          rw [← hem]
          exact hmem0
        obtain ⟨_, hnever⟩ := monitorSeq_triggered_persist id limit th hlim rest
          (monitorStep id limit m s).1 htrig
        simp only [monitorSeq, List.getD_cons_succ]
        constructor
        · intro hmem
          exact absurd hmem (hnever k)
        · rintro ⟨_, hall⟩
          have h0 := hall 0 (Nat.succ_pos k)
          rw [List.getD_cons_zero] at h0
          exact absurd hcross (not_le.mpr h0)
      · have hth0 : th ∉ (alget ((monitorStep id limit m s).1).thresholdAlerts id).getD [] := by
          rw [htr]
          intro hmem
          rcases List.mem_append.mp hmem with h1 | h2
          · exact h h1
          · have hp := List.of_mem_filter h2
            simp only [Bool.and_eq_true, decide_eq_true_iff] at hp
            exact hcross hp.2
        have hrec := ih (monitorStep id limit m s).1 hth0 k hk
        simp only [monitorSeq, List.getD_cons_succ]
        rw [hrec]
        constructor
        · rintro ⟨hle, hall⟩
          refine ⟨hle, fun j hj => ?_⟩
          cases j with
          | zero =>
            rw [List.getD_cons_zero]
            exact not_le.mp hcross
          | succ j' =>
            rw [List.getD_cons_succ]
            exact hall j' (by omega)
        · rintro ⟨hle, hall⟩
          refine ⟨hle, fun j hj => ?_⟩
          have hj1 := hall (j + 1) (by omega)
          rw [List.getD_cons_succ] at hj1
          exact hj1

/-- Claim C2 (amended): the once-per-(entity, threshold) guarantee holds
for the monitor's `budget_threshold` anomalies, not for
`CostTracker.record`.  Over any sequence of (`record_snapshot`;
`check_for_anomalies`) steps with recorded cumulative costs `c_i`, the
threshold `th` is emitted at step `i` **iff** step `i` is the first step
whose budget percentage `c_i / limit · 100` reaches `th` — so it is
emitted exactly once over the whole sequence, on the first crossing, and
never re-emitted while spend stays at or above the threshold (the
`triggered_thresholds` set only grows) — and at every step the
`budget_threshold` anomaly events for the entity are in bijection with
the newly triggered thresholds.  `CostTracker.record` itself re-emits its
`cost_threshold` event on every call at or above a threshold (see the
counterexample). -/
theorem C2_checkForAnomalies_threshold_once (m : CostMonitor) (entityId : String)
    (limit : ℚ) (steps : List (ℚ × ℚ)) (th i : Nat)
    (hth : th ∈ costAlertPercentages) (hlim : limit ≠ 0)
    (hinit : th ∉ (alget m.thresholdAlerts entityId).getD [])
    (hi : i < steps.length) :
    (th ∈ ((monitorSeq entityId limit m steps).2.getD i ([], [])).2 ↔
      ((th : ℚ) ≤ (steps.getD i (0, 0)).1 / limit * 100 ∧
       ∀ j, j < i → (steps.getD j (0, 0)).1 / limit * 100 < (th : ℚ))) ∧
    ((monitorSeq entityId limit m steps).2.getD i ([], [])).1.countP
        (isBudgetThresholdFor entityId)
      = ((monitorSeq entityId limit m steps).2.getD i ([], [])).2.length :=
  ⟨monitorSeq_first_crossing entityId limit th hth hlim steps m hinit i hi,
   monitorSeq_count entityId limit hlim steps m i⟩

/-- Witness for C2 (amended): three monitor steps with cumulative costs
5, 12, 13 against a 10-dollar limit; the 100% threshold is crossed first
at step 1. -/
theorem C2_checkForAnomalies_threshold_once_witness :
    ((100 : Nat) ∈ costAlertPercentages ∧ (10 : ℚ) ≠ 0 ∧
     (100 : Nat) ∉ (alget ({} : CostMonitor).thresholdAlerts "p").getD [] ∧
     1 < ([((5 : ℚ), (0 : ℚ)), (12, 60), (13, 120)] : List (ℚ × ℚ)).length) ∧
    ((100 ∈ ((monitorSeq "p" 10 {} [((5 : ℚ), (0 : ℚ)), (12, 60), (13, 120)]).2.getD 1 ([], [])).2 ↔
      (((100 : Nat) : ℚ) ≤ (([((5 : ℚ), (0 : ℚ)), (12, 60), (13, 120)] : List (ℚ × ℚ)).getD 1 (0, 0)).1 / 10 * 100 ∧
       ∀ j, j < 1 → (([((5 : ℚ), (0 : ℚ)), (12, 60), (13, 120)] : List (ℚ × ℚ)).getD j (0, 0)).1 / 10 * 100 < ((100 : Nat) : ℚ))) ∧
    ((monitorSeq "p" 10 {} [((5 : ℚ), (0 : ℚ)), (12, 60), (13, 120)]).2.getD 1 ([], [])).1.countP
        (isBudgetThresholdFor "p")
      = ((monitorSeq "p" 10 {} [((5 : ℚ), (0 : ℚ)), (12, 60), (13, 120)]).2.getD 1 ([], [])).2.length) :=
  ⟨⟨by decide, by decide, by decide, by decide⟩,
   C2_checkForAnomalies_threshold_once {} "p" 10 [((5 : ℚ), (0 : ℚ)), (12, 60), (13, 120)]
     100 1 (by decide) (by decide) (by decide) (by decide)⟩

end NexGen
